import Mathlib

/-!
# es_amqpcc: LibuvPublisher and LibuvSubscriber

A shallow embedding of `include/libuv/publisher.h` and `include/libuv/subscriber.h`.

Modelling conventions.

* A C++ member function is a state transformer `Exec σ α` over the object `σ`; running it
  yields the returned value or the exception that left the call, the object afterwards, and
  the ordered list of externally visible effects (calls into the AMQP-CPP channel, objects
  created and destroyed, user callbacks invoked).
* AMQP-CPP and libuv are not part of the repository.  Every answer of the library (what a
  channel call returns, whether a constructor throws) is an explicit argument of the
  operation that asks for it.
* A user callback is opaque user code: the model records that it was invoked, with which
  arguments, and whether it returned or threw.  Callbacks are taken not to call back into
  the object that invokes them.
* A `std::unique_ptr` field is modelled by whether it owns an object.
* `size_t` is 64 bit wide; `_message_count++` wraps at `SIZE_MAX`.
* Console output (`std::cout`) is not modelled.
-/

namespace es_amqpcc

/-! ## Exceptions, results, effects -/

/-- An exception in flight: one derived from `std::exception` (caught by
`catch (const std::exception &)`) with its `what()` text, or any other thrown value. -/
inductive Exn where
  | std (what : String)
  | other
  deriving DecidableEq, Repr

/-- How a call into user code or into a throwing library routine ends. -/
inductive Outcome where
  | returns
  | raises (e : Exn)
  deriving DecidableEq, Repr

/-- How a call that yields a value ends: with the value, or with an exception. -/
inductive Result (α : Type) where
  | returned (v : α)
  | raised (e : Exn)
  deriving DecidableEq, Repr

/-- The content of an `AMQP::Message` that user code can read. -/
structure Message where
  exchange : String
  routingkey : String
  body : String
  deriving DecidableEq, Repr

/-- Exchange kinds of AMQP-CPP (`AMQP::direct` is the only one the code uses). -/
inductive ExchangeType where
  | fanout
  | direct
  | topic
  | headers
  deriving DecidableEq, Repr

/-- The flags argument of `declareQueue` as the code passes it: `AMQP::durable`. -/
inductive QueueFlags where
  | durable
  deriving DecidableEq, Repr

/-- The flags argument of `TcpChannel::reject` as the code passes it: the literal `0`, or the
library constant `AMQP::requeue` (whose numeric value is not part of the source). -/
inductive RejectFlags where
  | zero
  | requeue
  deriving DecidableEq, Repr

/-- Externally visible effects of the two classes, in the order they happen. -/
inductive Effect where
  /-- A handler object was constructed (`ExchangeHandler` or `SubscriberHandler`). -/
  | newHandler
  /-- An `AMQP::TcpConnection` was constructed for the given address. -/
  | newConnection (amqp_url : String)
  /-- An `AMQP::TcpChannel` was constructed on the current connection. -/
  | newChannel
  /-- The handler previously owned was destroyed. -/
  | deleteHandler
  /-- The connection previously owned was destroyed. -/
  | deleteConnection
  /-- The channel previously owned was destroyed. -/
  | deleteChannel
  /-- The call `_channel->declareExchange(name, type)`. -/
  | declareExchange (name : String) (type : ExchangeType)
  /-- The call `_channel->declareQueue(name, flags)`. -/
  | declareQueue (name : String) (flags : QueueFlags)
  /-- The call `_channel->bindQueue(exchange, queue, routingkey)`. -/
  | bindQueue (exchange queue routingkey : String)
  /-- The call `_channel->consume(queue)`. -/
  | consume (queue : String)
  /-- The call `_channel->publish(exchange, routingKey, message)`. -/
  | chanPublish (exchange routingKey message : String)
  /-- The call `_channel->ack(deliveryTag)`. -/
  | chanAck (deliveryTag : Nat)
  /-- The call `_channel->reject(deliveryTag, flags)`. -/
  | chanReject (deliveryTag : Nat) (flags : RejectFlags)
  /-- The call `uv_run(_loop, UV_RUN_DEFAULT)` on a detached thread (publisher). -/
  | uvRunDetached
  /-- The call `uv_run(_loop, UV_RUN_DEFAULT)` on the calling thread (subscriber). -/
  | uvRun
  | on_connect_success
  | on_close_success
  | on_publish_success
  | on_declare_success
  | on_connect_error (message : String)
  | on_publish_error (message : String)
  | on_declare_error (message : String)
  /-- The user callback `_on_received(message, deliveryTag, redelivered)`; the last component
  is the value `get_message_number()` has while the callback runs. -/
  | on_received (message : Message) (deliveryTag : Nat) (redelivered : Bool)
      (message_number : Nat)
  | on_consume_start_success (consumerTag : String)
  | on_consume_start_error (message : String)
  deriving DecidableEq, Repr

/-- True for the effects that are calls on the AMQP channel object. -/
def Effect.isChannelCall : Effect → Bool
  | .declareExchange _ _ => true
  | .declareQueue _ _ => true
  | .bindQueue _ _ _ => true
  | .consume _ => true
  | .chanPublish _ _ _ => true
  | .chanAck _ => true
  | .chanReject _ _ => true
  | _ => false

/-! ## Member functions as state transformers -/

/-- What one call of a member function did: how it ended, the object afterwards, and the
effects it had, oldest first. -/
structure Run (σ α : Type) where
  ret : Result α
  state : σ
  effects : List Effect

/-- A member function of an object of type `σ` returning an `α`. -/
def Exec (σ α : Type) : Type := σ → Run σ α

/-- Return a value: `return a;`. -/
def Exec.pure {σ α : Type} (a : α) : Exec σ α :=
  fun s => ⟨.returned a, s, []⟩

/-- The effects `es` happened before the run `r`. -/
def Run.prepend {σ α : Type} (es : List Effect) (r : Run σ α) : Run σ α :=
  ⟨r.ret, r.state, es ++ r.effects⟩

/-- Continue after the run `r`: if it returned, `f` runs on the object it left; an exception
skips `f`. -/
def Run.bind {σ α β : Type} (r : Run σ α) (f : α → σ → Run σ β) : Run σ β :=
  match r.ret with
  | .returned a => (f a r.state).prepend r.effects
  | .raised e => ⟨.raised e, r.state, r.effects⟩

/-- The `catch (const std::exception &e)` clause applied to the run `r` of a `try` block:
only exceptions derived from `std::exception` are caught. -/
def Run.catch {σ α : Type} (r : Run σ α) (handler : String → σ → Run σ α) : Run σ α :=
  match r.ret with
  | .raised (.std what) => (handler what r.state).prepend r.effects
  | _ => r

/-- Sequencing of statements: run `m`, then `f` on its value. -/
def Exec.bind {σ α β : Type} (m : Exec σ α) (f : α → Exec σ β) : Exec σ β :=
  fun s => (m s).bind f

instance {σ : Type} : Monad (Exec σ) where
  pure := Exec.pure
  bind := Exec.bind

/-- Read the object (`*this`). -/
def Exec.this {σ : Type} : Exec σ σ :=
  fun s => ⟨.returned s, s, []⟩

/-- Assign to fields of the object. -/
def Exec.assign {σ : Type} (f : σ → σ) : Exec σ Unit :=
  fun s => ⟨.returned (), f s, []⟩

/-- Record one effect. -/
def Exec.emit {σ : Type} (e : Effect) : Exec σ Unit :=
  fun s => ⟨.returned (), s, [e]⟩

/-- The destructor of the object a `std::unique_ptr` owned, run when the pointer is
re-assigned or reset: it happens only if the pointer owned an object. -/
def Exec.destroy {σ : Type} (owned : Bool) (e : Effect) : Exec σ Unit :=
  fun s => ⟨.returned (), s, if owned then [e] else []⟩

/-- A library constructor: the object exists (and the effect is recorded) only if the
constructor did not throw. -/
def Exec.construct {σ : Type} (e : Effect) (o : Outcome) : Exec σ Unit :=
  fun s =>
    match o with
    | .returns => ⟨.returned (), s, [e]⟩
    | .raises x => ⟨.raised x, s, []⟩

/-- A call on a library object: the call is made, then the library answers. -/
def Exec.libCall {σ α : Type} (e : Effect) (reply : Result α) : Exec σ α :=
  fun s => ⟨reply, s, [e]⟩

/-- A call on a library object that yields nothing: it is made, then returns or throws. -/
def Exec.voidCall {σ : Type} (e : Effect) (o : Outcome) : Exec σ Unit :=
  fun s =>
    match o with
    | .returns => ⟨.returned (), s, [e]⟩
    | .raises x => ⟨.raised x, s, [e]⟩

/-- The idiom `if (slot) { slot(arg); }` for a `std::function` member. -/
def Exec.callIfSet {σ α : Type} (slot : σ → Option (α → Outcome)) (arg : α) (e : Effect) :
    Exec σ Unit :=
  fun s =>
    match slot s with
    | none => ⟨.returned (), s, []⟩
    | some cb =>
      match cb arg with
      | .returns => ⟨.returned (), s, [e]⟩
      | .raises x => ⟨.raised x, s, [e]⟩

/-- The block `try { body } catch (const std::exception &e) { handler(e.what()) }`. -/
def Exec.tryCatch {σ α : Type} (body : Exec σ α) (handler : String → Exec σ α) : Exec σ α :=
  fun s => (body s).catch handler

/-- The largest value of `size_t`. -/
def SIZE_MAX : Nat := 18446744073709551615

/-- The statement `n++` on a `size_t`. -/
def size_t_incr (n : Nat) : Nat := (n + 1) % (SIZE_MAX + 1)

/-! ## include/libuv/publisher.h -/

/-- What AMQP-CPP does during one `LibuvPublisher::connect` call: for each library step, in
source order, whether it throws. `make_connection` covers `AMQP::Address(amqp_url)` and the
`AMQP::TcpConnection` constructor. -/
structure ConnectEnv where
  make_handler : Outcome
  make_connection : Outcome
  make_channel : Outcome
  declareExchange : Outcome

/-- The library throws nowhere during `connect`. -/
def ConnectEnv.ok : ConnectEnv := ⟨.returns, .returns, .returns, .returns⟩

/-- The data members of `class LibuvPublisher`. -/
structure LibuvPublisher where
  _is_running : Bool
  /-- Whether `_loop` is non-null. -/
  _loop : Bool
  /-- Whether `_handler` owns a handler. -/
  _handler : Bool
  /-- Whether `_connection` owns a connection. -/
  _connection : Bool
  /-- Whether `_channel` owns a channel. -/
  _channel : Bool
  _exchange_name : String
  _routing_key : String
  _message_count : Nat
  _connected : Bool
  _on_connect_success : Option (Unit → Outcome)
  _on_close_success : Option (Unit → Outcome)
  _on_publish_success : Option (Unit → Outcome)
  _on_declare_success : Option (Unit → Outcome)
  _on_connect_error : Option (String → Outcome)
  _on_publish_error : Option (String → Outcome)
  _on_declare_error : Option (String → Outcome)

namespace LibuvPublisher

/-- The constructor `LibuvPublisher(exchange_name, routing_key)`; `loop` tells whether
`uv_default_loop()` returned a loop. -/
def new (exchange_name routing_key : String) (loop : Bool) : LibuvPublisher where
  _is_running := false
  _loop := loop
  _handler := false
  _connection := false
  _channel := false
  _exchange_name := exchange_name
  _routing_key := routing_key
  _message_count := 0
  _connected := false
  _on_connect_success := none
  _on_close_success := none
  _on_publish_success := none
  _on_declare_success := none
  _on_connect_error := none
  _on_publish_error := none
  _on_declare_error := none

/-- `ExchangeHandler::onError`, acting on `*_parent`. The handler is only ever constructed
with `_parent = this`, so the null test on `_parent` passes. -/
def onError (message : String) : Exec LibuvPublisher Unit :=
  Exec.callIfSet (fun p => p._on_connect_error) message (.on_connect_error message)

/-- `ExchangeHandler::onConnected`, acting on `*_parent`. -/
def onConnected : Exec LibuvPublisher Unit := do
  Exec.assign (fun p => { p with _connected := true })
  Exec.callIfSet (fun p => p._on_connect_success) () .on_connect_success

/-- `ExchangeHandler::onClosed`, acting on `*_parent`. -/
def onClosed : Exec LibuvPublisher Unit := do
  Exec.assign (fun p => { p with _connected := false })
  Exec.callIfSet (fun p => p._on_close_success) () .on_close_success

/-- The `onSuccess` continuation attached to `declareExchange` in `connect`. -/
def declare_onSuccess : Exec LibuvPublisher Unit :=
  Exec.callIfSet (fun p => p._on_declare_success) () .on_declare_success

/-- The `onError` continuation attached to `declareExchange` in `connect`. -/
def declare_onError (message : String) : Exec LibuvPublisher Unit :=
  Exec.callIfSet (fun p => p._on_declare_error) ("Exchange declaration failed: " ++ message)
    (.on_declare_error ("Exchange declaration failed: " ++ message))

/-- `bool connect(const std::string &amqp_url)`. -/
def connect (amqp_url : String) (env : ConnectEnv) : Exec LibuvPublisher Bool := do
  let p ← Exec.this
  if p._connected then
    Exec.pure true
  else
    Exec.tryCatch
      (do
        -- _handler = std::make_unique<ExchangeHandler>(_loop, this);
        Exec.construct .newHandler env.make_handler
        let p ← Exec.this
        Exec.destroy p._handler .deleteHandler
        Exec.assign (fun p => { p with _handler := true })
        -- _connection = std::make_unique<AMQP::TcpConnection>(_handler.get(), AMQP::Address(amqp_url));
        Exec.construct (.newConnection amqp_url) env.make_connection
        let p ← Exec.this
        Exec.destroy p._connection .deleteConnection
        Exec.assign (fun p => { p with _connection := true })
        -- _channel = std::make_unique<AMQP::TcpChannel>(_connection.get());
        Exec.construct .newChannel env.make_channel
        let p ← Exec.this
        Exec.destroy p._channel .deleteChannel
        Exec.assign (fun p => { p with _channel := true })
        -- _channel->declareExchange(_exchange_name, AMQP::direct).onSuccess(..).onError(..);
        let p ← Exec.this
        Exec.voidCall (.declareExchange p._exchange_name .direct) env.declareExchange
        Exec.assign (fun p => { p with _connected := true })
        Exec.pure true)
      (fun what => do
        Exec.callIfSet (fun p => p._on_connect_error) ("Connect failed: " ++ what)
          (.on_connect_error ("Connect failed: " ++ what))
        Exec.pure false)

/-- `bool close(void)`. The three `reset()` calls run destructors, which are `noexcept`, so
the `catch` block of the source cannot be entered and has no counterpart here. -/
def close : Exec LibuvPublisher Bool := do
  let p ← Exec.this
  if !p._connected then
    Exec.pure true
  else do
    Exec.destroy p._channel .deleteChannel
    Exec.assign (fun p => { p with _channel := false })
    Exec.destroy p._connection .deleteConnection
    Exec.assign (fun p => { p with _connection := false })
    Exec.destroy p._handler .deleteHandler
    Exec.assign (fun p => { p with _handler := false })
    Exec.assign (fun p => { p with _connected := false })
    Exec.pure true

/-- `bool publish(const std::string &msg)`; `chan` is what `_channel->publish` answers when
it is called. -/
def publish (msg : String) (chan : Result Bool) : Exec LibuvPublisher Bool := do
  let p ← Exec.this
  if !p._channel || !p._connected then
    Exec.callIfSet (fun p => p._on_publish_error) "Publish failed: channel is not open"
      (.on_publish_error "Publish failed: channel is not open")
    Exec.pure false
  else
    Exec.tryCatch
      (do
        let ret ← Exec.libCall (.chanPublish p._exchange_name p._routing_key msg) chan
        if false == ret then
          Exec.callIfSet (fun p => p._on_publish_error) "Publish failed: channel is not open"
            (.on_publish_error "Publish failed: channel is not open")
          Exec.pure false
        else do
          Exec.assign (fun p => { p with _message_count := size_t_incr p._message_count })
          Exec.callIfSet (fun p => p._on_publish_success) () .on_publish_success
          Exec.pure true)
      (fun what => do
        Exec.callIfSet (fun p => p._on_publish_error) ("Publish failed: " ++ what)
          (.on_publish_error ("Publish failed: " ++ what))
        Exec.pure false)

/-- `void on_connect_success(std::function<void()> callback)`. -/
def on_connect_success (callback : Option (Unit → Outcome)) : Exec LibuvPublisher Unit :=
  Exec.assign (fun p => { p with _on_connect_success := callback })

/-- `void on_closed(std::function<void()> callback)`. -/
def on_closed (callback : Option (Unit → Outcome)) : Exec LibuvPublisher Unit :=
  Exec.assign (fun p => { p with _on_close_success := callback })

/-- `void on_publish_success(std::function<void()> callback)`. -/
def on_publish_success (callback : Option (Unit → Outcome)) : Exec LibuvPublisher Unit :=
  Exec.assign (fun p => { p with _on_publish_success := callback })

/-- `void on_connect_error(std::function<void(const std::string &)> callback)`. -/
def on_connect_error (callback : Option (String → Outcome)) : Exec LibuvPublisher Unit :=
  Exec.assign (fun p => { p with _on_connect_error := callback })

/-- `void on_publish_error(std::function<void(const std::string &)> callback)`. -/
def on_publish_error (callback : Option (String → Outcome)) : Exec LibuvPublisher Unit :=
  Exec.assign (fun p => { p with _on_publish_error := callback })

/-- `void on_declare_success(std::function<void()> callback)`. -/
def on_declare_success (callback : Option (Unit → Outcome)) : Exec LibuvPublisher Unit :=
  Exec.assign (fun p => { p with _on_declare_success := callback })

/-- `void on_declare_error(std::function<void(const std::string &)> callback)`. -/
def on_declare_error (callback : Option (String → Outcome)) : Exec LibuvPublisher Unit :=
  Exec.assign (fun p => { p with _on_declare_error := callback })

/-- `bool run(void)`. -/
def run : Exec LibuvPublisher Bool := do
  let p ← Exec.this
  if !p._loop || p._is_running then
    Exec.pure false
  else do
    Exec.assign (fun p => { p with _is_running := true })
    Exec.emit .uvRunDetached
    Exec.pure true

/-- `size_t size() const`. -/
def size (p : LibuvPublisher) : Nat := p._message_count

/-- `const std::string &name() const`. -/
def name (p : LibuvPublisher) : String := p._exchange_name

/-- `const std::string &routing_key() const`. -/
def routing_key (p : LibuvPublisher) : String := p._routing_key

/-- One thing that can happen to a publisher: a call of a public member function by user
code, or a callback from the reactor (handler methods and the continuations of
`declareExchange`), each with the answers of the library it depends on. -/
inductive Event where
  | connect (amqp_url : String) (env : ConnectEnv)
  | close
  | publish (msg : String) (chan : Result Bool)
  | run
  | on_connect_success (callback : Option (Unit → Outcome))
  | on_closed (callback : Option (Unit → Outcome))
  | on_publish_success (callback : Option (Unit → Outcome))
  | on_connect_error (callback : Option (String → Outcome))
  | on_publish_error (callback : Option (String → Outcome))
  | on_declare_success (callback : Option (Unit → Outcome))
  | on_declare_error (callback : Option (String → Outcome))
  | onConnected
  | onError (message : String)
  | onClosed
  | declare_onSuccess
  | declare_onError (message : String)

/-- The publisher after one event. -/
def Event.apply (ev : Event) (p : LibuvPublisher) : LibuvPublisher :=
  match ev with
  | .connect amqp_url env => (LibuvPublisher.connect amqp_url env p).state
  | .close => (LibuvPublisher.close p).state
  | .publish msg chan => (LibuvPublisher.publish msg chan p).state
  | .run => (LibuvPublisher.run p).state
  | .on_connect_success cb => (LibuvPublisher.on_connect_success cb p).state
  | .on_closed cb => (LibuvPublisher.on_closed cb p).state
  | .on_publish_success cb => (LibuvPublisher.on_publish_success cb p).state
  | .on_connect_error cb => (LibuvPublisher.on_connect_error cb p).state
  | .on_publish_error cb => (LibuvPublisher.on_publish_error cb p).state
  | .on_declare_success cb => (LibuvPublisher.on_declare_success cb p).state
  | .on_declare_error cb => (LibuvPublisher.on_declare_error cb p).state
  | .onConnected => (LibuvPublisher.onConnected p).state
  | .onError message => (LibuvPublisher.onError message p).state
  | .onClosed => (LibuvPublisher.onClosed p).state
  | .declare_onSuccess => (LibuvPublisher.declare_onSuccess p).state
  | .declare_onError message => (LibuvPublisher.declare_onError message p).state

/-- The publisher after a sequence of events, oldest first. -/
def runEvents : List Event → LibuvPublisher → LibuvPublisher
  | [], p => p
  | ev :: evs, p => runEvents evs (ev.apply p)

end LibuvPublisher

/-! ## include/libuv/subscriber.h -/

/-- What AMQP-CPP does during one `LibuvSubscriber::connect` call: for each library step, in
source order, whether it throws; `consume` also carries the string that the expression
assigned to `_consumer_tag` converts to. -/
structure SubscribeEnv where
  make_handler : Outcome
  make_connection : Outcome
  make_channel : Outcome
  declareExchange : Outcome
  declareQueue : Outcome
  bindQueue : Outcome
  consume : Result String

/-- The library throws nowhere during `connect`; `tag` is what `_consumer_tag` receives. -/
def SubscribeEnv.ok (tag : String) : SubscribeEnv :=
  ⟨.returns, .returns, .returns, .returns, .returns, .returns, .returned tag⟩

/-- The data members of `class LibuvSubscriber`. -/
structure LibuvSubscriber where
  /-- Whether `_loop` is non-null. -/
  _loop : Bool
  /-- Whether `_handler` owns a handler. -/
  _handler : Bool
  /-- Whether `_connection` owns a connection. -/
  _connection : Bool
  /-- Whether `_channel` owns a channel. -/
  _channel : Bool
  _exchange_name : String
  _routing_key : String
  _queue_name : String
  _consumer_tag : String
  _message_count : Nat
  _on_connect_success : Option (Unit → Outcome)
  _on_connect_error : Option (String → Outcome)
  _on_received : Option (Message × Nat × Bool → Outcome)
  _on_consume_start_success : Option (String → Outcome)
  _on_consume_start_error : Option (String → Outcome)

namespace LibuvSubscriber

/-- The constructor `LibuvSubscriber(exchange_name, routing_key, queue_name)`; `loop` tells
whether `uv_default_loop()` returned a loop. -/
def new (exchange_name routing_key queue_name : String) (loop : Bool) : LibuvSubscriber where
  _loop := loop
  _handler := false
  _connection := false
  _channel := false
  _exchange_name := exchange_name
  _routing_key := routing_key
  _queue_name := queue_name
  _consumer_tag := ""
  _message_count := 0
  _on_connect_success := none
  _on_connect_error := none
  _on_received := none
  _on_consume_start_success := none
  _on_consume_start_error := none

/-- `SubscriberHandler::onError`, acting on `*_parent`. The handler is only ever constructed
with `_parent = this`, so the null test on `_parent` passes. -/
def onError (message : String) : Exec LibuvSubscriber Unit :=
  Exec.callIfSet (fun s => s._on_connect_error) message (.on_connect_error message)

/-- `SubscriberHandler::onConnected`, acting on `*_parent`. -/
def onConnected : Exec LibuvSubscriber Unit :=
  Exec.callIfSet (fun s => s._on_connect_success) () .on_connect_success

/-- The `onReceived` continuation attached to `consume` in `connect`. -/
def consume_onReceived (message : Message) (deliveryTag : Nat) (redelivered : Bool) :
    Exec LibuvSubscriber Unit := do
  Exec.assign (fun s => { s with _message_count := size_t_incr s._message_count })
  let s ← Exec.this
  Exec.callIfSet (fun s => s._on_received) (message, deliveryTag, redelivered)
    (.on_received message deliveryTag redelivered s._message_count)

/-- The `onSuccess` continuation attached to `consume` in `connect`. -/
def consume_onSuccess (consumerTag : String) : Exec LibuvSubscriber Unit :=
  Exec.callIfSet (fun s => s._on_consume_start_success) consumerTag
    (.on_consume_start_success consumerTag)

/-- The `onError` continuation attached to `consume` in `connect`. -/
def consume_onError (message : String) : Exec LibuvSubscriber Unit :=
  Exec.callIfSet (fun s => s._on_consume_start_error) message
    (.on_consume_start_error message)

/-- `bool connect(const std::string &amqp_url)`. -/
def connect (amqp_url : String) (env : SubscribeEnv) : Exec LibuvSubscriber Bool :=
  Exec.tryCatch
    (do
      -- _handler.reset(new SubscriberHandler(_loop, this));
      Exec.construct .newHandler env.make_handler
      let s ← Exec.this
      Exec.destroy s._handler .deleteHandler
      Exec.assign (fun s => { s with _handler := true })
      -- _connection.reset(new AMQP::TcpConnection(_handler.get(), AMQP::Address(amqp_url)));
      Exec.construct (.newConnection amqp_url) env.make_connection
      let s ← Exec.this
      Exec.destroy s._connection .deleteConnection
      Exec.assign (fun s => { s with _connection := true })
      -- _channel.reset(new AMQP::TcpChannel(_connection.get()));
      Exec.construct .newChannel env.make_channel
      let s ← Exec.this
      Exec.destroy s._channel .deleteChannel
      Exec.assign (fun s => { s with _channel := true })
      let s ← Exec.this
      Exec.voidCall (.declareExchange s._exchange_name .direct) env.declareExchange
      Exec.voidCall (.declareQueue s._queue_name .durable) env.declareQueue
      Exec.voidCall (.bindQueue s._exchange_name s._queue_name s._routing_key) env.bindQueue
      let tag ← Exec.libCall (.consume s._queue_name) env.consume
      Exec.assign (fun s => { s with _consumer_tag := tag })
      Exec.pure true)
    (fun what => do
      Exec.callIfSet (fun s => s._on_connect_error) ("Connection failed: " ++ what)
        (.on_connect_error ("Connection failed: " ++ what))
      Exec.pure false)

/-- `void on_connect_success(std::function<void()> callback)`. -/
def on_connect_success (callback : Option (Unit → Outcome)) : Exec LibuvSubscriber Unit :=
  Exec.assign (fun s => { s with _on_connect_success := callback })

/-- `void on_connect_error(std::function<void(const std::string &)> callback)`. -/
def on_connect_error (callback : Option (String → Outcome)) : Exec LibuvSubscriber Unit :=
  Exec.assign (fun s => { s with _on_connect_error := callback })

/-- `void on_received(std::function<void(const AMQP::Message &, uint64_t, bool)> callback)`. -/
def on_received (callback : Option (Message × Nat × Bool → Outcome)) :
    Exec LibuvSubscriber Unit :=
  Exec.assign (fun s => { s with _on_received := callback })

/-- `void on_consume_success(std::function<void(const std::string &)> callback)`. -/
def on_consume_success (callback : Option (String → Outcome)) : Exec LibuvSubscriber Unit :=
  Exec.assign (fun s => { s with _on_consume_start_success := callback })

/-- `void on_consume_error(std::function<void(const std::string &)> callback)`. -/
def on_consume_error (callback : Option (String → Outcome)) : Exec LibuvSubscriber Unit :=
  Exec.assign (fun s => { s with _on_consume_start_error := callback })

/-- `bool ack(uint64_t deliveryTag) const`; `chan` is what `_channel->ack` answers when it
is called. -/
def ack (deliveryTag : Nat) (chan : Result Bool) : Exec LibuvSubscriber Bool := do
  let s ← Exec.this
  if s._channel then
    Exec.libCall (.chanAck deliveryTag) chan
  else
    Exec.pure false

/-- `bool reject(uint64_t deliveryTag) const`; `chan` is what `_channel->reject` answers
when it is called. -/
def reject (deliveryTag : Nat) (chan : Result Bool) : Exec LibuvSubscriber Bool := do
  let s ← Exec.this
  if s._channel then
    Exec.libCall (.chanReject deliveryTag .zero) chan
  else
    Exec.pure false

/-- `bool requeue(uint64_t deliveryTag) const`; `chan` is what `_channel->reject` answers
when it is called. -/
def requeue (deliveryTag : Nat) (chan : Result Bool) : Exec LibuvSubscriber Bool := do
  let s ← Exec.this
  if s._channel then
    Exec.libCall (.chanReject deliveryTag .requeue) chan
  else
    Exec.pure false

/-- `size_t get_message_number() const`. -/
def get_message_number (s : LibuvSubscriber) : Nat := s._message_count

/-- `bool run()`. -/
def run : Exec LibuvSubscriber Bool := do
  let s ← Exec.this
  if !s._loop then
    Exec.pure false
  else if s._loop then do
    Exec.emit .uvRun
    Exec.pure true
  else
    Exec.pure false

/-- `const std::string &exchange_name() const`. -/
def exchange_name (s : LibuvSubscriber) : String := s._exchange_name

/-- `const std::string &routing_key() const`. -/
def routing_key (s : LibuvSubscriber) : String := s._routing_key

/-- `const std::string &queue_name() const`. -/
def queue_name (s : LibuvSubscriber) : String := s._queue_name

/-- The three ways to settle a delivery. -/
inductive Settlement where
  | ack
  | reject
  | requeue
  deriving DecidableEq, Repr

/-- The member function that carries out a settlement. -/
def settle (k : Settlement) (deliveryTag : Nat) (chan : Result Bool) :
    Exec LibuvSubscriber Bool :=
  match k with
  | .ack => ack deliveryTag chan
  | .reject => reject deliveryTag chan
  | .requeue => requeue deliveryTag chan

end LibuvSubscriber

namespace LibuvSubscriber

/-- The `onSuccess` continuation attached to `declareExchange` in `connect`: it only prints. -/
def declareExchange_onSuccess : Exec LibuvSubscriber Unit :=
  Exec.pure ()

/-- The `onError` continuation attached to `declareExchange` in `connect`: it only prints. -/
def declareExchange_onError (_message : String) : Exec LibuvSubscriber Unit :=
  Exec.pure ()

/-- The `onSuccess` continuation attached to `declareQueue` in `connect`: it only prints. -/
def declareQueue_onSuccess (_name : String) (_messageCount _consumerCount : Nat) :
    Exec LibuvSubscriber Unit :=
  Exec.pure ()

/-- The `onError` continuation attached to `declareQueue` in `connect`: it only prints. -/
def declareQueue_onError (_message : String) : Exec LibuvSubscriber Unit :=
  Exec.pure ()

/-- The `onSuccess` continuation attached to `bindQueue` in `connect`: it only prints. -/
def bindQueue_onSuccess : Exec LibuvSubscriber Unit :=
  Exec.pure ()

/-- The `onError` continuation attached to `bindQueue` in `connect`: it only prints. -/
def bindQueue_onError (_message : String) : Exec LibuvSubscriber Unit :=
  Exec.pure ()

/-- The four channel commands of `connect`, in source order, for the names the subscriber
holds. -/
def connectCommands (s : LibuvSubscriber) : List Effect :=
  [.declareExchange s._exchange_name .direct, .declareQueue s._queue_name .durable,
    .bindQueue s._exchange_name s._queue_name s._routing_key, .consume s._queue_name]

/-- One thing that can happen to a subscriber: a call of a public member function by user
code, or a callback from the reactor (handler methods and the continuations attached in
`connect`), each with the answers of the library it depends on. -/
inductive Event where
  | connect (amqp_url : String) (env : SubscribeEnv)
  | on_connect_success (callback : Option (Unit → Outcome))
  | on_connect_error (callback : Option (String → Outcome))
  | on_received (callback : Option (Message × Nat × Bool → Outcome))
  | on_consume_success (callback : Option (String → Outcome))
  | on_consume_error (callback : Option (String → Outcome))
  | ack (deliveryTag : Nat) (chan : Result Bool)
  | reject (deliveryTag : Nat) (chan : Result Bool)
  | requeue (deliveryTag : Nat) (chan : Result Bool)
  | run
  | onConnected
  | onError (message : String)
  | declareExchange_onSuccess
  | declareExchange_onError (message : String)
  | declareQueue_onSuccess (name : String) (messageCount consumerCount : Nat)
  | declareQueue_onError (message : String)
  | bindQueue_onSuccess
  | bindQueue_onError (message : String)
  | consume_onReceived (message : Message) (deliveryTag : Nat) (redelivered : Bool)
  | consume_onSuccess (consumerTag : String)
  | consume_onError (message : String)

/-- The subscriber after one event. -/
def Event.apply (ev : Event) (s : LibuvSubscriber) : LibuvSubscriber :=
  match ev with
  | .connect amqp_url env => (LibuvSubscriber.connect amqp_url env s).state
  | .on_connect_success cb => (LibuvSubscriber.on_connect_success cb s).state
  | .on_connect_error cb => (LibuvSubscriber.on_connect_error cb s).state
  | .on_received cb => (LibuvSubscriber.on_received cb s).state
  | .on_consume_success cb => (LibuvSubscriber.on_consume_success cb s).state
  | .on_consume_error cb => (LibuvSubscriber.on_consume_error cb s).state
  | .ack deliveryTag chan => (LibuvSubscriber.ack deliveryTag chan s).state
  | .reject deliveryTag chan => (LibuvSubscriber.reject deliveryTag chan s).state
  | .requeue deliveryTag chan => (LibuvSubscriber.requeue deliveryTag chan s).state
  | .run => (LibuvSubscriber.run s).state
  | .onConnected => (LibuvSubscriber.onConnected s).state
  | .onError message => (LibuvSubscriber.onError message s).state
  | .declareExchange_onSuccess => (LibuvSubscriber.declareExchange_onSuccess s).state
  | .declareExchange_onError message =>
    (LibuvSubscriber.declareExchange_onError message s).state
  | .declareQueue_onSuccess name messageCount consumerCount =>
    (LibuvSubscriber.declareQueue_onSuccess name messageCount consumerCount s).state
  | .declareQueue_onError message => (LibuvSubscriber.declareQueue_onError message s).state
  | .bindQueue_onSuccess => (LibuvSubscriber.bindQueue_onSuccess s).state
  | .bindQueue_onError message => (LibuvSubscriber.bindQueue_onError message s).state
  | .consume_onReceived message deliveryTag redelivered =>
    (LibuvSubscriber.consume_onReceived message deliveryTag redelivered s).state
  | .consume_onSuccess consumerTag => (LibuvSubscriber.consume_onSuccess consumerTag s).state
  | .consume_onError message => (LibuvSubscriber.consume_onError message s).state

/-- The subscriber after a sequence of events, oldest first. -/
def runEvents : List Event → LibuvSubscriber → LibuvSubscriber
  | [], s => s
  | ev :: evs, s => runEvents evs (ev.apply s)

end LibuvSubscriber

namespace LibuvSubscriber

/-- One delivery as the channel hands it to the `onReceived` continuation. -/
structure Delivery where
  message : Message
  deliveryTag : Nat
  redelivered : Bool

/-- The reactor dispatches the deliveries of one channel, oldest first, through the
`onReceived` continuation: the subscriber afterwards and the effects of all dispatches. -/
def deliverAll : List Delivery → LibuvSubscriber → LibuvSubscriber × List Effect
  | [], s => (s, [])
  | d :: ds, s =>
    ((deliverAll ds (consume_onReceived d.message d.deliveryTag d.redelivered s).state).1,
      (consume_onReceived d.message d.deliveryTag d.redelivered s).effects ++
        (deliverAll ds (consume_onReceived d.message d.deliveryTag d.redelivered s).state).2)

/-- The delivery tags handed to the `on_received` callback, in the order of the calls. -/
def handedTags : List Effect → List Nat
  | [] => []
  | .on_received _ deliveryTag _ _ :: es => deliveryTag :: handedTags es
  | _ :: es => handedTags es

end LibuvSubscriber

/-! ## tests/test_message_handling.cc -/

/-- The test `content.find(needle) != std::string::npos`: some position of `content` starts
with `needle`. -/
def std_string_contains (content needle : String) : Bool :=
  content.data.tails.any (fun rest => needle.data.isPrefixOf rest)

/-- The `on_received` handler the message-handling test registers; `subscriber` is the
object the lambda captures by reference, the body is the message body read into `content`,
and `chan` is what the channel answers to the one call the handler makes, if it reaches the
channel. -/
def test_on_received (message : Message) (delivery_tag : Nat) (_redelivered : Bool)
    (chan : Result Bool) : Exec LibuvSubscriber Unit := do
  let content := message.body
  if std_string_contains content "success" then
    let _ ← LibuvSubscriber.ack delivery_tag chan
    Exec.pure ()
  else if std_string_contains content "retry" then
    let _ ← LibuvSubscriber.requeue delivery_tag chan
    Exec.pure ()
  else
    let _ ← LibuvSubscriber.reject delivery_tag chan
    Exec.pure ()

/-- The settlement the test handler chooses for a message body. -/
def test_on_received_choice (content : String) : LibuvSubscriber.Settlement :=
  if std_string_contains content "success" then .ack
  else if std_string_contains content "retry" then .requeue
  else .reject

namespace LibuvPublisher

/-- The effects of one event on a publisher. -/
def Event.effects (ev : Event) (p : LibuvPublisher) : List Effect :=
  match ev with
  | .connect amqp_url env => (LibuvPublisher.connect amqp_url env p).effects
  | .close => (LibuvPublisher.close p).effects
  | .publish msg chan => (LibuvPublisher.publish msg chan p).effects
  | .run => (LibuvPublisher.run p).effects
  | .on_connect_success cb => (LibuvPublisher.on_connect_success cb p).effects
  | .on_closed cb => (LibuvPublisher.on_closed cb p).effects
  | .on_publish_success cb => (LibuvPublisher.on_publish_success cb p).effects
  | .on_connect_error cb => (LibuvPublisher.on_connect_error cb p).effects
  | .on_publish_error cb => (LibuvPublisher.on_publish_error cb p).effects
  | .on_declare_success cb => (LibuvPublisher.on_declare_success cb p).effects
  | .on_declare_error cb => (LibuvPublisher.on_declare_error cb p).effects
  | .onConnected => (LibuvPublisher.onConnected p).effects
  | .onError message => (LibuvPublisher.onError message p).effects
  | .onClosed => (LibuvPublisher.onClosed p).effects
  | .declare_onSuccess => (LibuvPublisher.declare_onSuccess p).effects
  | .declare_onError message => (LibuvPublisher.declare_onError message p).effects

/-- The effects of a sequence of events, oldest first. -/
def traceEffects : List Event → LibuvPublisher → List Effect
  | [], _ => []
  | ev :: evs, p => ev.effects p ++ traceEffects evs (ev.apply p)

end LibuvPublisher

/-! ## Declare-before-use on an effect log

The channel a publisher owns is always the one created last (`connect` is the only place
that creates one and it stores it at once), so in a log of effects a `publish` call on the
channel goes to the channel of the latest `newChannel` before it. -/

/-- The effects that matter for declare-before-use: creation of a channel, `declareExchange`
and `publish` on the channel. -/
def Effect.isChannelUse : Effect → Bool
  | .newChannel => true
  | .declareExchange _ _ => true
  | .chanPublish _ _ _ => true
  | _ => false

/-- Reading a log from the left, with `declared` telling whether `declareExchange name` has
been issued on the current channel so far: the same information at the end of the log. -/
def declaredAfter (name : String) : Bool → List Effect → Bool
  | declared, [] => declared
  | _, .newChannel :: es => declaredAfter name false es
  | declared, .declareExchange n _ :: es => declaredAfter name (declared || n == name) es
  | declared, _ :: es => declaredAfter name declared es

/-- Reading a log from the left, with `declared` telling whether `declareExchange name` has
been issued on the current channel so far: every `publish` call on the channel comes after
a `declareExchange name` on the same channel. -/
def declaredBeforeUse (name : String) : Bool → List Effect → Bool
  | _, [] => true
  | _, .newChannel :: es => declaredBeforeUse name false es
  | declared, .declareExchange n _ :: es => declaredBeforeUse name (declared || n == name) es
  | declared, .chanPublish _ _ _ :: es => declared && declaredBeforeUse name declared es
  | declared, _ :: es => declaredBeforeUse name declared es

/-! ## Evaluation rules -/

theorem Exec.bind_eq {σ α β : Type} (m : Exec σ α) (f : α → Exec σ β) :
    (m >>= f) = Exec.bind m f := rfl

theorem Exec.bind_apply {σ α β : Type} (m : Exec σ α) (f : α → Exec σ β) (s : σ) :
    Exec.bind m f s = (m s).bind f := rfl

theorem Exec.tryCatch_apply {σ α : Type} (b : Exec σ α) (h : String → Exec σ α) (s : σ) :
    Exec.tryCatch b h s = (b s).catch h := rfl

theorem Run.bind_returned {σ α β : Type} (a : α) (s : σ) (es : List Effect)
    (f : α → σ → Run σ β) :
    Run.bind ⟨.returned a, s, es⟩ f = (f a s).prepend es := rfl

theorem Run.bind_raised {σ α β : Type} (e : Exn) (s : σ) (es : List Effect)
    (f : α → σ → Run σ β) :
    Run.bind (⟨.raised e, s, es⟩ : Run σ α) f = ⟨.raised e, s, es⟩ := rfl

theorem Run.prepend_mk {σ α : Type} (es es2 : List Effect) (r : Result α) (s : σ) :
    Run.prepend es (⟨r, s, es2⟩ : Run σ α) = ⟨r, s, es ++ es2⟩ := rfl

theorem Run.prepend_state {σ α : Type} (es : List Effect) (r : Run σ α) :
    (Run.prepend es r).state = r.state := rfl

theorem Run.prepend_ret {σ α : Type} (es : List Effect) (r : Run σ α) :
    (Run.prepend es r).ret = r.ret := rfl

theorem Run.catch_std {σ α : Type} (w : String) (s : σ) (es : List Effect)
    (h : String → σ → Run σ α) :
    Run.catch (⟨.raised (.std w), s, es⟩ : Run σ α) h = (h w s).prepend es := rfl

theorem Run.catch_other {σ α : Type} (s : σ) (es : List Effect)
    (h : String → σ → Run σ α) :
    Run.catch (⟨.raised .other, s, es⟩ : Run σ α) h = ⟨.raised .other, s, es⟩ := rfl

theorem Run.catch_returned {σ α : Type} (a : α) (s : σ) (es : List Effect)
    (h : String → σ → Run σ α) :
    Run.catch (⟨.returned a, s, es⟩ : Run σ α) h = ⟨.returned a, s, es⟩ := rfl

theorem size_t_incr_le (n : Nat) : size_t_incr n ≤ n + 1 :=
  Nat.mod_le _ _

theorem size_t_incr_of_lt {n : Nat} (h : n < SIZE_MAX) : size_t_incr n = n + 1 :=
  Nat.mod_eq_of_lt (Nat.succ_lt_succ h)

/-- A registered-callback call leaves the object alone. -/
theorem Exec.callIfSet_state {σ α : Type} (slot : σ → Option (α → Outcome)) (arg : α)
    (e : Effect) (s : σ) : (Exec.callIfSet slot arg e s).state = s := by
  unfold Exec.callIfSet
  split
  · rfl
  · split <;> rfl

/-! ## LibuvPublisher: what each member function does to the object -/

namespace LibuvPublisher

/-- A publish that finds the gate closed changes nothing. -/
theorem publish_state_not_ready (p : LibuvPublisher) (msg : String) (chan : Result Bool)
    (h : p._channel = false ∨ p._connected = false) :
    (publish msg chan p).state = p := by
  unfold publish
  cases hch : p._channel <;> cases hc : p._connected <;>
    cases hpe : p._on_publish_error <;>
    simp only [Exec.bind_eq, Exec.pure, Exec.bind_apply, Exec.tryCatch_apply,
      Run.bind_returned, Run.bind_raised, Run.prepend_mk, Run.catch_std, Run.catch_other,
      Run.catch_returned, Exec.this, Bool.false_eq_true, ↓reduceIte, Bool.not_true,
      Bool.not_false, Bool.or_true, Bool.or_false, Bool.or_self,
      Exec.libCall, Exec.assign, Exec.callIfSet, hch, hc, hpe] <;>
    first
      | (split <;> rfl)
      | (rcases h with h | h <;> simp [hch, hc] at h)

/-- A publish that passes the gate and is accepted by the channel increments the counter
and changes nothing else. -/
theorem publish_state_accepted (p : LibuvPublisher) (msg : String)
    (hch : p._channel = true) (hc : p._connected = true) :
    (publish msg (.returned true) p).state =
      { p with _message_count := size_t_incr p._message_count } := by
  unfold publish
  cases hpe : p._on_publish_error <;> cases hps : p._on_publish_success <;>
    simp only [Exec.bind_eq, Exec.pure, Exec.bind_apply, Exec.tryCatch_apply,
      Run.bind_returned, Run.bind_raised, Run.prepend_mk, Run.catch_std, Run.catch_other,
      Run.catch_returned, Exec.this, Bool.false_eq_true, ↓reduceIte, Bool.not_true,
      Bool.not_false, Bool.or_true, Bool.or_false, Bool.or_self, beq_iff_eq,
      Exec.libCall, Exec.assign, Exec.callIfSet, hch, hc, hpe, hps] <;>
    repeat (first
      | rfl
      | (split <;> simp only [Run.bind_returned, Run.bind_raised, Run.prepend_mk, Run.catch_std,
          Run.catch_other, Run.catch_returned, Exec.pure, Exec.bind_apply, Exec.callIfSet, hpe,
          hps])
      | (simp only [Run.catch]; split <;>
          simp only [Run.bind_returned, Run.bind_raised, Run.prepend_mk, Exec.pure,
            Exec.bind_apply, Exec.callIfSet, hpe]))

/-- A publish that the channel refuses, or during which the channel throws, changes
nothing. -/
theorem publish_state_refused (p : LibuvPublisher) (msg : String) (chan : Result Bool)
    (h : chan ≠ .returned true) :
    (publish msg chan p).state = p := by
  by_cases hr : p._channel = false ∨ p._connected = false
  · exact publish_state_not_ready p msg chan hr
  · have hch : p._channel = true := by
      cases hx : p._channel
      · exact absurd (Or.inl hx) hr
      · rfl
    have hc : p._connected = true := by
      cases hx : p._connected
      · exact absurd (Or.inr hx) hr
      · rfl
    unfold publish
    rcases chan with (_ | _) | (_ | _)
    all_goals first | exact absurd rfl h | skip
    all_goals
      cases hpe : p._on_publish_error <;>
      simp only [Exec.bind_eq, Exec.pure, Exec.bind_apply, Exec.tryCatch_apply,
        Run.bind_returned, Run.bind_raised, Run.prepend_mk, Run.catch_std, Run.catch_other,
        Run.catch_returned, Exec.this, Bool.false_eq_true, ↓reduceIte, Bool.not_true,
        Bool.not_false, Bool.or_true, Bool.or_false, Bool.or_self, beq_iff_eq,
        Exec.libCall, Exec.assign, Exec.callIfSet, hch, hc, hpe] <;>
      repeat (first
        | rfl
        | (split <;> simp only [Run.bind_returned, Run.bind_raised, Run.prepend_mk,
            Run.catch_std, Run.catch_other, Run.catch_returned, Exec.pure, Exec.bind_apply,
            Exec.callIfSet, hpe])
        | (simp only [Run.catch]; split <;>
            simp only [Run.bind_returned, Run.bind_raised, Run.prepend_mk, Exec.pure,
              Exec.bind_apply, Exec.callIfSet, hpe]))

/-- On a publisher flagged connected, `connect` returns at once. -/
theorem connect_of_connected (p : LibuvPublisher) (amqp_url : String) (env : ConnectEnv)
    (hc : p._connected = true) :
    connect amqp_url env p = ⟨.returned true, p, []⟩ := by
  unfold connect
  simp only [Exec.bind_eq, Exec.pure, Exec.bind_apply, Run.bind_returned, Run.prepend_mk,
    Exec.this, hc, ↓reduceIte]
  rfl

/-- The fields `connect` can change are the three owning pointers and the connected flag. -/
theorem connect_frame (p : LibuvPublisher) (amqp_url : String) (env : ConnectEnv) :
    (connect amqp_url env p).state =
        { p with
          _handler := (connect amqp_url env p).state._handler
          _connection := (connect amqp_url env p).state._connection
          _channel := (connect amqp_url env p).state._channel
          _connected := (connect amqp_url env p).state._connected } := by
  obtain ⟨h1, h2, h3, h4⟩ := env
  obtain ⟨ir, lp, hd, cn, ch, en, rk, mc, cd, cs, cl, ps, ds, ce, pe, de⟩ := p
  unfold connect
  cases cd
  · cases ce <;>
    rcases h1 with _ | (_ | _) <;> rcases h2 with _ | (_ | _) <;> rcases h3 with _ | (_ | _) <;>
      rcases h4 with _ | (_ | _) <;>
      simp only [Exec.bind_eq, Exec.pure, Exec.bind_apply, Exec.tryCatch_apply,
        Run.bind_returned, Run.bind_raised, Run.prepend_state, Run.prepend_ret, Run.prepend_mk,
        Run.catch_std, Run.catch_other,
        Run.catch_returned, Exec.this, Bool.false_eq_true, ↓reduceIte,
        Exec.construct, Exec.destroy, Exec.assign, Exec.voidCall, Exec.callIfSet] <;>
      repeat (first
        | rfl
        | (split <;> try simp only [Run.bind_returned, Run.bind_raised, Run.prepend_mk]))
  · simp only [Exec.bind_eq, Exec.pure, Exec.bind_apply, Run.bind_returned, Run.prepend_mk,
      Exec.this, ↓reduceIte]

/-- After `connect` the flag is set exactly when it was set before or the call returned
`true`. -/
theorem connect_flag (p : LibuvPublisher) (amqp_url : String) (env : ConnectEnv) :
      (connect amqp_url env p).state._connected =
        (p._connected || decide ((connect amqp_url env p).ret = .returned true)) := by
  obtain ⟨h1, h2, h3, h4⟩ := env
  obtain ⟨ir, lp, hd, cn, ch, en, rk, mc, cd, cs, cl, ps, ds, ce, pe, de⟩ := p
  unfold connect
  cases cd
  · cases ce <;>
    rcases h1 with _ | (_ | _) <;> rcases h2 with _ | (_ | _) <;> rcases h3 with _ | (_ | _) <;>
      rcases h4 with _ | (_ | _) <;>
      simp only [Exec.bind_eq, Exec.pure, Exec.bind_apply, Exec.tryCatch_apply,
        Run.bind_returned, Run.bind_raised, Run.prepend_state, Run.prepend_ret, Run.prepend_mk,
        Run.catch_std, Run.catch_other,
        Run.catch_returned, Exec.this, Bool.false_eq_true, ↓reduceIte,
        Exec.construct, Exec.destroy, Exec.assign, Exec.voidCall, Exec.callIfSet] <;>
      repeat (first
        | rfl
        | (split <;> try simp only [Run.bind_returned, Run.bind_raised, Run.prepend_mk]))
  · simp only [Exec.bind_eq, Exec.pure, Exec.bind_apply, Run.bind_returned, Run.prepend_mk,
      Exec.this, ↓reduceIte]
    rfl

/-- The object after `close`. -/
theorem close_state (p : LibuvPublisher) :
    (close p).state =
      if p._connected = true then
        { p with _channel := false, _connection := false, _handler := false,
                 _connected := false }
      else p := by
  unfold close
  cases hc : p._connected <;>
    simp only [Exec.bind_eq, Exec.pure, Exec.bind_apply, Run.bind_returned, Run.prepend_state,
      Run.prepend_mk, Exec.this, Exec.destroy, Exec.assign, Bool.false_eq_true, ↓reduceIte,
      Bool.not_true, Bool.not_false, hc]

/-- The value `close` returns. -/
theorem close_ret (p : LibuvPublisher) : (close p).ret = .returned true := by
  unfold close
  cases hc : p._connected <;>
    simp only [Exec.bind_eq, Exec.pure, Exec.bind_apply, Run.bind_returned, Run.prepend_ret,
      Run.prepend_mk, Exec.this, Exec.destroy, Exec.assign, Bool.false_eq_true, ↓reduceIte,
      Bool.not_true, Bool.not_false, hc]

/-- On a publisher not flagged connected `close` does nothing at all. -/
theorem close_of_not_connected (p : LibuvPublisher) (hc : p._connected = false) :
    close p = ⟨.returned true, p, []⟩ := by
  unfold close
  simp only [Exec.bind_eq, Exec.pure, Exec.bind_apply, Run.bind_returned,
    Run.prepend_mk, Exec.this, Bool.not_false, ↓reduceIte, hc]
  rfl

/-- The object after `run`. -/
theorem run_state (p : LibuvPublisher) :
    (run p).state = if (!p._loop || p._is_running) = true then p
      else { p with _is_running := true } := by
  unfold run
  cases hl : p._loop <;> cases hr : p._is_running <;>
    simp only [Exec.bind_eq, Exec.pure, Exec.bind_apply, Run.bind_returned, Run.prepend_state,
      Run.prepend_mk, Exec.this, Exec.emit, Exec.assign, Bool.false_eq_true, ↓reduceIte,
      Bool.not_true, Bool.not_false, Bool.or_true, Bool.or_false, Bool.or_self, hl, hr]

/-- The object after `onConnected`. -/
theorem onConnected_state (p : LibuvPublisher) :
    (onConnected p).state = { p with _connected := true } := by
  unfold onConnected
  simp only [Exec.bind_eq, Exec.bind_apply, Exec.assign, Run.bind_returned, Run.prepend_state,
    Exec.callIfSet_state]

/-- The object after `onClosed`. -/
theorem onClosed_state (p : LibuvPublisher) :
    (onClosed p).state = { p with _connected := false } := by
  unfold onClosed
  simp only [Exec.bind_eq, Exec.bind_apply, Exec.assign, Run.bind_returned, Run.prepend_state,
    Exec.callIfSet_state]

/-- The handler method `onError` leaves the object as it was. -/
theorem onError_state (p : LibuvPublisher) (message : String) :
    (onError message p).state = p :=
  Exec.callIfSet_state _ _ _ p

/-- The success continuation of `declareExchange` leaves the object as it was. -/
theorem declare_onSuccess_state (p : LibuvPublisher) : (declare_onSuccess p).state = p :=
  Exec.callIfSet_state _ _ _ p

/-- The error continuation of `declareExchange` leaves the object as it was. -/
theorem declare_onError_state (p : LibuvPublisher) (message : String) :
    (declare_onError message p).state = p :=
  Exec.callIfSet_state _ _ _ p

/-- One event leaves the counter alone or increments it. -/
theorem apply_size (ev : Event) (p : LibuvPublisher) :
    (ev.apply p).size = p.size ∨ (ev.apply p).size = size_t_incr p.size := by
  cases ev with
  | connect amqp_url env =>
    left
    show (LibuvPublisher.connect amqp_url env p).state._message_count = p._message_count
    rw [connect_frame]
  | close =>
    left
    show (LibuvPublisher.close p).state._message_count = p._message_count
    rw [close_state]
    split <;> rfl
  | publish msg chan =>
    show (LibuvPublisher.publish msg chan p).state._message_count = p._message_count ∨
      (LibuvPublisher.publish msg chan p).state._message_count = size_t_incr p._message_count
    by_cases h : p._channel = true ∧ p._connected = true ∧ chan = .returned true
    · obtain ⟨h1, h2, h3⟩ := h
      right
      rw [h3, publish_state_accepted p msg h1 h2]
    · left
      by_cases h3 : chan = .returned true
      · rw [publish_state_not_ready]
        cases h1 : p._channel
        · exact Or.inl rfl
        · cases h2 : p._connected
          · exact Or.inr rfl
          · exact absurd ⟨h1, h2, h3⟩ h
      · rw [publish_state_refused p msg chan h3]
  | run =>
    left
    show (LibuvPublisher.run p).state._message_count = p._message_count
    rw [run_state]
    split <;> rfl
  | onConnected =>
    left
    show (LibuvPublisher.onConnected p).state._message_count = p._message_count
    rw [onConnected_state]
  | onClosed =>
    left
    show (LibuvPublisher.onClosed p).state._message_count = p._message_count
    rw [onClosed_state]
  | onError message =>
    left
    show (LibuvPublisher.onError message p).state._message_count = p._message_count
    rw [onError_state]
  | declare_onSuccess =>
    left
    show (LibuvPublisher.declare_onSuccess p).state._message_count = p._message_count
    rw [declare_onSuccess_state]
  | declare_onError message =>
    left
    show (LibuvPublisher.declare_onError message p).state._message_count = p._message_count
    rw [declare_onError_state]
  | _ => exact Or.inl rfl

/-- A run of `n` events raises the counter by at most `n`. -/
theorem runEvents_size_le (evs : List Event) (p : LibuvPublisher) :
    (runEvents evs p).size ≤ p.size + evs.length := by
  induction evs generalizing p with
  | nil => exact Nat.le_refl _
  | cons ev evs ih =>
    have h1 := ih (ev.apply p)
    have h2 : (ev.apply p).size ≤ p.size + 1 := by
      rcases apply_size ev p with h | h
      · omega
      · rw [h]; exact size_t_incr_le _
    simp only [runEvents, List.length_cons]
    omega

end LibuvPublisher

theorem Run.bind_effects_extend {σ α β : Type} (r : Run σ α) (f : α → σ → Run σ β) :
    ∃ rest, (r.bind f).effects = r.effects ++ rest := by
  unfold Run.bind
  split
  · exact ⟨_, rfl⟩
  · exact ⟨[], (List.append_nil _).symm⟩

theorem Run.catch_effects_extend {σ α : Type} (r : Run σ α) (h : String → σ → Run σ α) :
    ∃ rest, (r.catch h).effects = r.effects ++ rest := by
  unfold Run.catch
  split
  · exact ⟨_, rfl⟩
  · exact ⟨[], (List.append_nil _).symm⟩

namespace LibuvPublisher

/-- What `publish` does when it finds the gate closed. -/
theorem publish_not_ready (p : LibuvPublisher) (msg : String) (chan : Result Bool)
    (h : p._connected = false ∨ p._channel = false) :
    (publish msg chan p).state = p ∧
    (∀ e ∈ (publish msg chan p).effects, e.isChannelCall = false) ∧
    (publish msg chan p).ret ≠ .returned true ∧
    ((∀ cb, p._on_publish_error = some cb →
        cb "Publish failed: channel is not open" = Outcome.returns) →
      (publish msg chan p).ret = .returned false) := by
  refine ⟨publish_state_not_ready p msg chan h.symm, ?_⟩
  have hg : (!p._channel || !p._connected) = true := by
    rcases h with h | h <;> simp [h]
  unfold publish
  cases hcb : p._on_publish_error with
  | none =>
    simp only [Exec.bind_eq, Exec.bind_apply, Exec.this, Run.bind_returned, hg, ↓reduceIte,
      Exec.callIfSet, Exec.pure, Run.prepend_mk, hcb]
    simp
  | some cb =>
    cases ho : cb "Publish failed: channel is not open" with
    | returns =>
      simp only [Exec.bind_eq, Exec.bind_apply, Exec.this, Run.bind_returned, hg, ↓reduceIte,
        Exec.callIfSet, Exec.pure, Run.prepend_mk, hcb, ho]
      simp [Effect.isChannelCall]
    | raises x =>
      simp only [Exec.bind_eq, Exec.bind_apply, Exec.this, Run.bind_returned, Run.bind_raised,
        hg, ↓reduceIte, Exec.callIfSet, Exec.pure, Run.prepend_mk, hcb, ho]
      simp [Effect.isChannelCall, ho]

/-- A `publish` that passes the gate starts by calling `publish` on the channel. -/
theorem publish_effects_ready (p : LibuvPublisher) (msg : String) (chan : Result Bool)
    (hch : p._channel = true) (hc : p._connected = true) :
    ∃ rest, (publish msg chan p).effects =
      Effect.chanPublish p._exchange_name p._routing_key msg :: rest := by
  have key : ∀ (f : Bool → LibuvPublisher → Run LibuvPublisher Bool)
      (h : String → LibuvPublisher → Run LibuvPublisher Bool),
      ∃ rest, (Run.prepend []
        (Run.catch (Run.bind ⟨chan, p, [Effect.chanPublish p._exchange_name p._routing_key msg]⟩
          f) h)).effects = Effect.chanPublish p._exchange_name p._routing_key msg :: rest := by
    intro f h
    obtain ⟨r1, h1⟩ := Run.bind_effects_extend
      (⟨chan, p, [Effect.chanPublish p._exchange_name p._routing_key msg]⟩ :
        Run LibuvPublisher Bool) f
    obtain ⟨r2, h2⟩ := Run.catch_effects_extend
      (Run.bind ⟨chan, p, [Effect.chanPublish p._exchange_name p._routing_key msg]⟩ f) h
    exact ⟨r1 ++ r2, by simp [Run.prepend, h2, h1]⟩
  unfold publish
  simp only [Exec.bind_eq, Exec.bind_apply, Exec.tryCatch_apply, Exec.this, Run.bind_returned,
    Bool.not_true, Bool.or_self, Bool.false_eq_true, ↓reduceIte, Exec.libCall, hch, hc]
  exact key _ _

/-- The channel is asked to publish exactly when the gate is open. -/
theorem publish_reaches_channel_iff (p : LibuvPublisher) (msg : String) (chan : Result Bool) :
    Effect.chanPublish p._exchange_name p._routing_key msg ∈ (publish msg chan p).effects ↔
      p._channel = true ∧ p._connected = true := by
  constructor
  · intro hmem
    by_contra hn
    have hnr : p._connected = false ∨ p._channel = false := by
      cases h1 : p._channel
      · exact Or.inr rfl
      · cases h2 : p._connected
        · exact Or.inl rfl
        · exact absurd ⟨h1, h2⟩ hn
    have := (publish_not_ready p msg chan hnr).2.1 _ hmem
    simp [Effect.isChannelCall] at this
  · rintro ⟨h1, h2⟩
    obtain ⟨rest, hr⟩ := publish_effects_ready p msg chan h1 h2
    rw [hr]
    exact List.mem_cons_self _ _

/-- The effect of `publish` on the counter. -/
theorem publish_size (p : LibuvPublisher) (msg : String) (chan : Result Bool) :
    (p._channel = true ∧ p._connected = true ∧ chan = .returned true →
      (publish msg chan p).state.size = size_t_incr p.size) ∧
    (¬ (p._channel = true ∧ p._connected = true ∧ chan = .returned true) →
      (publish msg chan p).state.size = p.size) := by
  refine ⟨?_, ?_⟩
  · rintro ⟨h1, h2, h3⟩
    rw [h3, publish_state_accepted p msg h1 h2]
    rfl
  · intro hn
    by_cases h3 : chan = .returned true
    · rw [publish_state_not_ready]
      cases h1 : p._channel
      · exact Or.inl rfl
      · cases h2 : p._connected
        · exact Or.inr rfl
        · exact absurd ⟨h1, h2, h3⟩ hn
    · rw [publish_state_refused p msg chan h3]

/-- While the counter is below `SIZE_MAX`, one event does not lower it. -/
theorem apply_size_ge (ev : Event) (p : LibuvPublisher) (h : p.size < SIZE_MAX) :
    p.size ≤ (ev.apply p).size := by
  rcases apply_size ev p with h1 | h1
  · rw [h1]
  · rw [h1, size_t_incr_of_lt h]
    exact Nat.le_succ _

/-- Running a concatenation of event sequences. -/
theorem runEvents_append (xs ys : List Event) (p : LibuvPublisher) :
    runEvents (xs ++ ys) p = runEvents ys (runEvents xs p) := by
  induction xs generalizing p with
  | nil => rfl
  | cons x xs ih => exact ih (x.apply p)

end LibuvPublisher

/-! ## LibuvPublisher against the specification -/

section PublisherSpec

open LibuvPublisher

/-- C1, refuted as stated: on a freshly constructed publisher, which is not connected, whose
publish-error callback throws, `publish` does not return `false`: the exception of the
callback leaves `publish`. -/
theorem unready_publish_callback_raises :
    (on_publish_error (some fun _ => Outcome.raises (.std "handler failed"))
      (new "orders" "order.created" true)).state._connected = false ∧
    (publish "hello" (.returned true)
      (on_publish_error (some fun _ => Outcome.raises (.std "handler failed"))
        (new "orders" "order.created" true)).state).ret = .raised (.std "handler failed") ∧
    (publish "hello" (.returned true)
      (on_publish_error (some fun _ => Outcome.raises (.std "handler failed"))
        (new "orders" "order.created" true)).state).ret ≠ .returned false := by
  decide

/-- C1, amended. On a publisher that is not connected (the connected flag is false or there
is no channel) `publish` changes nothing, so `size()` keeps its value, makes no call on the
channel, never returns `true`, and returns `false` whenever the registered publish-error
callback (if any) returns normally. -/
theorem publish_not_connected (p : LibuvPublisher) (msg : String) (chan : Result Bool)
    (h : p._connected = false ∨ p._channel = false) :
    (publish msg chan p).state.size = p.size ∧
    (publish msg chan p).state = p ∧
    (∀ e ∈ (publish msg chan p).effects, e.isChannelCall = false) ∧
    (publish msg chan p).ret ≠ .returned true ∧
    ((∀ cb, p._on_publish_error = some cb →
        cb "Publish failed: channel is not open" = Outcome.returns) →
      (publish msg chan p).ret = .returned false) :=
  ⟨by rw [(publish_not_ready p msg chan h).1], publish_not_ready p msg chan h⟩

/-- C1 amended, at a freshly constructed publisher without callbacks: the message is not
counted and `false` comes back, although the channel would have accepted it. -/
theorem publish_not_connected_witness :
    ((new "orders" "order.created" true)._connected = false ∨
      (new "orders" "order.created" true)._channel = false) ∧
    (publish "hello" (.returned true) (new "orders" "order.created" true)).state.size = 0 ∧
    (publish "hello" (.returned true) (new "orders" "order.created" true)).ret =
      .returned false :=
  ⟨Or.inl rfl,
    (publish_not_connected (new "orders" "order.created" true) "hello" (.returned true)
      (Or.inl rfl)).1,
    (publish_not_connected (new "orders" "order.created" true) "hello" (.returned true)
      (Or.inl rfl)).2.2.2.2 (by intro cb hcb; cases hcb)⟩

/-- C3. While the counter is below `SIZE_MAX`: a `publish` that reaches the channel and gets
`true` from it raises `size()` by exactly 1; a `publish` that does not reach the channel,
or that the channel answers otherwise, leaves `size()` as it was. The channel is reached
exactly when the publisher has a channel and is flagged connected. -/
theorem publish_counts_accepted (p : LibuvPublisher) (msg : String) (chan : Result Bool)
    (h : p.size < SIZE_MAX) :
    (p._channel = true ∧ p._connected = true ∧ chan = .returned true →
      (publish msg chan p).state.size = p.size + 1) ∧
    (¬ (p._channel = true ∧ p._connected = true ∧ chan = .returned true) →
      (publish msg chan p).state.size = p.size) ∧
    (Effect.chanPublish p._exchange_name p._routing_key msg ∈ (publish msg chan p).effects ↔
      p._channel = true ∧ p._connected = true) := by
  refine ⟨fun hacc => ?_, (publish_size p msg chan).2, publish_reaches_channel_iff p msg chan⟩
  rw [(publish_size p msg chan).1 hacc]
  exact size_t_incr_of_lt h

/-- C3 on a connected publisher that has counted 41 messages: an accepted publish makes it
42, a refused one leaves 41. -/
theorem publish_counts_accepted_witness :
    ({ (connect "amqp://localhost/" ConnectEnv.ok (new "orders" "order.created" true)).state
        with _message_count := 41 } : LibuvPublisher).size < SIZE_MAX ∧
    (publish "hello" (.returned true)
      { (connect "amqp://localhost/" ConnectEnv.ok (new "orders" "order.created" true)).state
        with _message_count := 41 }).state.size = 41 + 1 ∧
    (publish "hello" (.returned false)
      { (connect "amqp://localhost/" ConnectEnv.ok (new "orders" "order.created" true)).state
        with _message_count := 41 }).state.size = 41 :=
  ⟨by decide,
    (publish_counts_accepted _ "hello" (.returned true) (by decide)).1 ⟨rfl, rfl, rfl⟩,
    (publish_counts_accepted _ "hello" (.returned false) (by decide)).2.1
      (fun hx => by cases hx.2.2)⟩

/-- C4. The publish counter never decrements: along every sequence of publisher operations
and reactor events that is too short to exhaust the 64-bit counter, `size()` after each
step is at least `size()` before it; `close()` and `connect()` leave the counter as it is,
so closing and connecting again does not reset it. -/
theorem size_never_decrements (p : LibuvPublisher) (evs : List Event)
    (h : p.size + evs.length ≤ SIZE_MAX) :
    (∀ (pre : List Event) (ev : Event) (post : List Event), evs = pre ++ ev :: post →
      (runEvents pre p).size ≤ (ev.apply (runEvents pre p)).size) ∧
    (close p).state.size = p.size ∧
    (∀ amqp_url env, (connect amqp_url env (close p).state).state.size = p.size) := by
  refine ⟨?_, ?_, ?_⟩
  · intro pre ev post hsplit
    apply apply_size_ge
    have h1 := runEvents_size_le pre p
    have h2 : pre.length < evs.length := by
      rw [hsplit, List.length_append, List.length_cons]
      omega
    omega
  · show (close p).state._message_count = p._message_count
    rw [close_state]
    split <;> rfl
  · intro amqp_url env
    show (connect amqp_url env (close p).state).state._message_count = p._message_count
    rw [connect_frame, close_state]
    split <;> rfl

/-- C4 on a concrete history: connect, two accepted publishes, close, connect again, one
more accepted publish. The close step keeps the counter at 2, and so does reconnecting. -/
theorem size_never_decrements_witness :
    (new "orders" "order.created" true).size +
        [Event.connect "amqp://localhost/" ConnectEnv.ok, Event.publish "a" (.returned true),
          Event.publish "b" (.returned true), Event.close,
          Event.connect "amqp://localhost/" ConnectEnv.ok,
          Event.publish "c" (.returned true)].length ≤ SIZE_MAX ∧
    (runEvents [Event.connect "amqp://localhost/" ConnectEnv.ok,
        Event.publish "a" (.returned true), Event.publish "b" (.returned true)]
        (new "orders" "order.created" true)).size ≤
      (Event.close.apply (runEvents [Event.connect "amqp://localhost/" ConnectEnv.ok,
        Event.publish "a" (.returned true), Event.publish "b" (.returned true)]
        (new "orders" "order.created" true))).size :=
  ⟨by decide,
    (size_never_decrements (new "orders" "order.created" true)
      [Event.connect "amqp://localhost/" ConnectEnv.ok, Event.publish "a" (.returned true),
        Event.publish "b" (.returned true), Event.close,
        Event.connect "amqp://localhost/" ConnectEnv.ok,
        Event.publish "c" (.returned true)] (by decide)).1
      [Event.connect "amqp://localhost/" ConnectEnv.ok, Event.publish "a" (.returned true),
        Event.publish "b" (.returned true)] Event.close
      [Event.connect "amqp://localhost/" ConnectEnv.ok, Event.publish "c" (.returned true)]
      rfl⟩

/-- C6. `close()` is idempotent: it always returns `true`; on a publisher that is not
flagged connected (never connected, or already closed) it changes nothing and has no
effect; and a second `close()` right after a first returns `true` and leaves the object
exactly as the first left it. -/
theorem close_idempotent (p : LibuvPublisher) :
    (close p).ret = .returned true ∧
    (p._connected = false → close p = ⟨.returned true, p, []⟩) ∧
    close (close p).state = ⟨.returned true, (close p).state, []⟩ := by
  refine ⟨close_ret p, close_of_not_connected p, ?_⟩
  apply close_of_not_connected
  rw [close_state]
  split
  · rfl
  · cases hc : p._connected
    · rfl
    · rename_i hn
      exact absurd hc hn

/-- C6 on a never-connected publisher and on a connected one. -/
theorem close_idempotent_witness :
    (new "orders" "order.created" true)._connected = false ∧
    close (new "orders" "order.created" true) =
      ⟨.returned true, new "orders" "order.created" true, []⟩ ∧
    close (close (connect "amqp://localhost/" ConnectEnv.ok
      (new "orders" "order.created" true)).state).state =
      ⟨.returned true, (close (connect "amqp://localhost/" ConnectEnv.ok
        (new "orders" "order.created" true)).state).state, []⟩ :=
  ⟨rfl, (close_idempotent (new "orders" "order.created" true)).2.1 rfl,
    (close_idempotent (connect "amqp://localhost/" ConnectEnv.ok
      (new "orders" "order.created" true)).state).2.2⟩

/-- C7, evaluated: a first `connect` succeeds, the reactor then reports the failure through
`onError`, and the next `connect` returns `true` at once with no effect at all: no handler,
connection or channel is created and `declareExchange` is not issued again. The connected
flag, which `onError` leaves set, is what makes `connect` return early; after a `connect`
that itself returned `false` the flag is clear and the next `connect` does start afresh. -/
theorem connect_after_onError_does_nothing :
    (connect "amqp://localhost/" ConnectEnv.ok (new "orders" "order.created" true)).ret =
      .returned true ∧
    (onError "connection lost" (connect "amqp://localhost/" ConnectEnv.ok
      (new "orders" "order.created" true)).state).state._connected = true ∧
    (connect "amqp://localhost/" ConnectEnv.ok
      (onError "connection lost" (connect "amqp://localhost/" ConnectEnv.ok
        (new "orders" "order.created" true)).state).state).ret = .returned true ∧
    (connect "amqp://localhost/" ConnectEnv.ok
      (onError "connection lost" (connect "amqp://localhost/" ConnectEnv.ok
        (new "orders" "order.created" true)).state).state).effects = [] ∧
    (connect "not a url" ⟨.returns, .raises (.std "AMQP address should start with amqp://"),
      .returns, .returns⟩ (new "orders" "order.created" true)).ret = .returned false ∧
    (connect "amqp://localhost/" ConnectEnv.ok
      (connect "not a url" ⟨.returns, .raises (.std "AMQP address should start with amqp://"),
        .returns, .returns⟩ (new "orders" "order.created" true)).state).effects =
      [.newHandler, .deleteHandler, .newConnection "amqp://localhost/", .newChannel,
        .declareExchange "orders" .direct] := by
  decide

/-- C8, refuted as stated: `connect()` sets the connected flag without any reactor callback
having run, and `close()` clears it. -/
theorem connected_flag_set_by_connect :
    (new "orders" "order.created" true)._connected = false ∧
    (connect "amqp://localhost/" ConnectEnv.ok
      (new "orders" "order.created" true)).state._connected = true ∧
    (close (connect "amqp://localhost/" ConnectEnv.ok
      (new "orders" "order.created" true)).state).state._connected = false := by
  decide

/-- C8, amended. The connected flag after one event other than `onError`: `connect()` leaves
it set if it was set, and otherwise sets it exactly when it returns `true`; `close()` and
`onClosed` clear it; `onConnected` sets it; `publish()`, `run()`, the callback setters and
the two continuations of `declareExchange` leave it as it was. -/
theorem connected_flag_after_event (p : LibuvPublisher) (ev : Event)
    (hev : ∀ message, ev ≠ Event.onError message) :
    (ev.apply p)._connected =
      match ev with
      | .connect amqp_url env =>
        p._connected || decide ((connect amqp_url env p).ret = .returned true)
      | .close => false
      | .onClosed => false
      | .onConnected => true
      | _ => p._connected := by
  cases ev with
  | connect amqp_url env => exact connect_flag p amqp_url env
  | close =>
    show (LibuvPublisher.close p).state._connected = false
    rw [close_state]
    split
    · rfl
    · cases hc : p._connected
      · rfl
      · rename_i hn
        exact absurd hc hn
  | publish msg chan =>
    show (LibuvPublisher.publish msg chan p).state._connected = p._connected
    by_cases h : p._channel = true ∧ p._connected = true ∧ chan = .returned true
    · obtain ⟨h1, h2, h3⟩ := h
      rw [h3, publish_state_accepted p msg h1 h2]
    · by_cases h3 : chan = .returned true
      · rw [publish_state_not_ready]
        cases h1 : p._channel
        · exact Or.inl rfl
        · cases h2 : p._connected
          · exact Or.inr rfl
          · exact absurd ⟨h1, h2, h3⟩ h
      · rw [publish_state_refused p msg chan h3]
  | run =>
    show (LibuvPublisher.run p).state._connected = p._connected
    rw [run_state]
    split <;> rfl
  | onConnected =>
    show (LibuvPublisher.onConnected p).state._connected = true
    rw [onConnected_state]
  | onClosed =>
    show (LibuvPublisher.onClosed p).state._connected = false
    rw [onClosed_state]
  | onError message => exact absurd rfl (hev message)
  | declare_onSuccess =>
    show (LibuvPublisher.declare_onSuccess p).state._connected = p._connected
    rw [declare_onSuccess_state]
  | declare_onError message =>
    show (LibuvPublisher.declare_onError message p).state._connected = p._connected
    rw [declare_onError_state]
  | _ => rfl

/-- C8 amended, on a fresh publisher: a `connect()` that meets no exception returns `true`
and leaves the flag set, before any reactor callback has run. -/
theorem connected_flag_after_event_witness :
    (∀ message, Event.connect "amqp://localhost/" ConnectEnv.ok ≠ Event.onError message) ∧
    ((Event.connect "amqp://localhost/" ConnectEnv.ok).apply
      (new "orders" "order.created" true))._connected = true :=
  ⟨fun _ h => Event.noConfusion h,
    connected_flag_after_event (new "orders" "order.created" true)
      (Event.connect "amqp://localhost/" ConnectEnv.ok) (fun _ h => Event.noConfusion h)⟩

end PublisherSpec

/-! ## LibuvSubscriber: what the member functions do -/

namespace LibuvSubscriber

/-- What `ack` does. -/
theorem ack_eq (s : LibuvSubscriber) (deliveryTag : Nat) (chan : Result Bool) :
    ack deliveryTag chan s =
      if s._channel = true then ⟨chan, s, [.chanAck deliveryTag]⟩
      else ⟨.returned false, s, []⟩ := by
  unfold ack
  cases hch : s._channel <;>
    simp only [Exec.bind_eq, Exec.bind_apply, Exec.this, Run.bind_returned, Exec.libCall,
      Exec.pure, Run.prepend_mk, Bool.false_eq_true, ↓reduceIte, hch] <;> rfl

/-- What `reject` does. -/
theorem reject_eq (s : LibuvSubscriber) (deliveryTag : Nat) (chan : Result Bool) :
    reject deliveryTag chan s =
      if s._channel = true then ⟨chan, s, [.chanReject deliveryTag .zero]⟩
      else ⟨.returned false, s, []⟩ := by
  unfold reject
  cases hch : s._channel <;>
    simp only [Exec.bind_eq, Exec.bind_apply, Exec.this, Run.bind_returned, Exec.libCall,
      Exec.pure, Run.prepend_mk, Bool.false_eq_true, ↓reduceIte, hch] <;> rfl

/-- What `requeue` does. -/
theorem requeue_eq (s : LibuvSubscriber) (deliveryTag : Nat) (chan : Result Bool) :
    requeue deliveryTag chan s =
      if s._channel = true then ⟨chan, s, [.chanReject deliveryTag .requeue]⟩
      else ⟨.returned false, s, []⟩ := by
  unfold requeue
  cases hch : s._channel <;>
    simp only [Exec.bind_eq, Exec.bind_apply, Exec.this, Run.bind_returned, Exec.libCall,
      Exec.pure, Run.prepend_mk, Bool.false_eq_true, ↓reduceIte, hch] <;> rfl

/-- A settlement call leaves the subscriber as it was. -/
theorem settle_state (s : LibuvSubscriber) (k : Settlement) (deliveryTag : Nat)
    (chan : Result Bool) : (settle k deliveryTag chan s).state = s := by
  cases k
  · show (ack deliveryTag chan s).state = s
    rw [ack_eq]
    split <;> rfl
  · show (reject deliveryTag chan s).state = s
    rw [reject_eq]
    split <;> rfl
  · show (requeue deliveryTag chan s).state = s
    rw [requeue_eq]
    split <;> rfl

/-- A settlement call returns the answer of the channel if there is a channel, and `false`
otherwise. -/
theorem settle_ret (s : LibuvSubscriber) (k : Settlement) (deliveryTag : Nat)
    (chan : Result Bool) :
    (settle k deliveryTag chan s).ret = if s._channel = true then chan else .returned false := by
  cases k
  · show (ack deliveryTag chan s).ret = _
    rw [ack_eq]
    split <;> rfl
  · show (reject deliveryTag chan s).ret = _
    rw [reject_eq]
    split <;> rfl
  · show (requeue deliveryTag chan s).ret = _
    rw [requeue_eq]
    split <;> rfl

/-- A settlement call makes no call on the channel exactly when there is no channel. -/
theorem settle_effects_nil_iff (s : LibuvSubscriber) (k : Settlement) (deliveryTag : Nat)
    (chan : Result Bool) :
    (settle k deliveryTag chan s).effects = [] ↔ s._channel = false := by
  cases hch : s._channel <;> cases k <;>
    simp [settle, ack_eq, reject_eq, requeue_eq, hch]

/-- A `connect` during which the library throws nowhere leaves the subscriber with a
channel. -/
theorem connect_ok_channel (s : LibuvSubscriber) (amqp_url tag : String) :
    (connect amqp_url (SubscribeEnv.ok tag) s).state._channel = true ∧
    (connect amqp_url (SubscribeEnv.ok tag) s).ret = .returned true := by
  unfold connect SubscribeEnv.ok
  simp only [Exec.bind_eq, Exec.bind_apply, Exec.tryCatch_apply, Exec.this, Exec.construct,
    Exec.destroy, Exec.assign, Exec.voidCall, Exec.libCall, Exec.pure, Run.bind_returned,
    Run.prepend_mk, Run.catch_returned, and_self]

/-- With a channel, a settlement call makes exactly one call on the channel. -/
theorem settle_effects (s : LibuvSubscriber) (k : Settlement) (deliveryTag : Nat)
    (chan : Result Bool) (h : s._channel = true) :
    (settle k deliveryTag chan s).effects =
      [match k with
        | .ack => Effect.chanAck deliveryTag
        | .reject => Effect.chanReject deliveryTag .zero
        | .requeue => Effect.chanReject deliveryTag .requeue] := by
  cases k <;> simp [settle, ack_eq, reject_eq, requeue_eq, h]

end LibuvSubscriber

/-! ## LibuvSubscriber against the specification -/

section SubscriberSpec

open LibuvSubscriber

/-- C2, refuted as stated: on a subscriber with an open channel, `ack(7)` returns `true` and
a second `ack(7)`, a `reject(7)` and a `requeue(7)` after it return `true` as well, whenever
the channel answers `true`: the subscriber itself keeps no record of settled tags. -/
theorem settle_twice_not_refused :
    (connect "amqp://localhost/" (SubscribeEnv.ok "ctag")
      (new "orders" "order.created" "orders-q" true)).state._channel = true ∧
    (ack 7 (.returned true) (connect "amqp://localhost/" (SubscribeEnv.ok "ctag")
      (new "orders" "order.created" "orders-q" true)).state).ret = .returned true ∧
    (ack 7 (.returned true) (ack 7 (.returned true)
      (connect "amqp://localhost/" (SubscribeEnv.ok "ctag")
        (new "orders" "order.created" "orders-q" true)).state).state).ret = .returned true ∧
    (reject 7 (.returned true) (ack 7 (.returned true)
      (connect "amqp://localhost/" (SubscribeEnv.ok "ctag")
        (new "orders" "order.created" "orders-q" true)).state).state).ret = .returned true ∧
    (requeue 7 (.returned true) (ack 7 (.returned true)
      (connect "amqp://localhost/" (SubscribeEnv.ok "ctag")
        (new "orders" "order.created" "orders-q" true)).state).state).ret = .returned true := by
  decide

/-- C2, amended. On a subscriber with a channel, a settlement call (`ack`, `reject` or
`requeue`) is forwarded to the channel as one call, returns what the channel answers and
leaves the subscriber unchanged; a later settlement call of any kind for the same tag is
forwarded in the same way and returns exactly what the channel answers to it, as it would
have without the earlier call: a repeated settlement is refused only if the channel refuses
it. -/
theorem settle_keeps_no_record (s : LibuvSubscriber) (k1 k2 : Settlement) (t : Nat)
    (c1 c2 : Result Bool) (h : s._channel = true) :
    (settle k1 t c1 s).ret = c1 ∧
    (settle k1 t c1 s).state = s ∧
    (settle k2 t c2 (settle k1 t c1 s).state).ret = c2 ∧
    (settle k2 t c2 (settle k1 t c1 s).state).ret = (settle k2 t c2 s).ret ∧
    (settle k1 t c1 s).effects =
      [match k1 with
        | .ack => Effect.chanAck t
        | .reject => Effect.chanReject t .zero
        | .requeue => Effect.chanReject t .requeue] ∧
    (settle k2 t c2 (settle k1 t c1 s).state).effects =
      [match k2 with
        | .ack => Effect.chanAck t
        | .reject => Effect.chanReject t .zero
        | .requeue => Effect.chanReject t .requeue] ∧
    (settle k2 t c2 (settle k1 t c1 s).state).state = s := by
  simp only [settle_state, settle_ret, settle_effects _ _ _ _ h, if_pos h, and_self]

/-- C2 amended, on a connected subscriber: after an accepted `ack(7)`, a `requeue(7)` is
handed to the channel as `reject(7, requeue)` and, the channel refusing it, returns
`false`. -/
theorem settle_keeps_no_record_witness :
    (connect "amqp://localhost/" (SubscribeEnv.ok "ctag")
      (new "orders" "order.created" "orders-q" true)).state._channel = true ∧
    (settle .requeue 7 (.returned false) (settle .ack 7 (.returned true)
      (connect "amqp://localhost/" (SubscribeEnv.ok "ctag")
        (new "orders" "order.created" "orders-q" true)).state).state).ret =
      .returned false ∧
    (settle .requeue 7 (.returned false) (settle .ack 7 (.returned true)
      (connect "amqp://localhost/" (SubscribeEnv.ok "ctag")
        (new "orders" "order.created" "orders-q" true)).state).state).effects =
      [.chanReject 7 .requeue] :=
  ⟨rfl, (settle_keeps_no_record _ .ack .requeue 7 (.returned true) (.returned false) rfl).2.2.1,
    (settle_keeps_no_record _ .ack .requeue 7 (.returned true) (.returned false)
      rfl).2.2.2.2.2.1⟩

/-- C5. While the receive counter is below `SIZE_MAX`, dispatching one delivery raises
`get_message_number()` by exactly 1 and changes nothing else, with or without a registered
`on_received` callback; without one nothing is invoked; with one it is invoked exactly once,
with the same message, delivery tag and redelivered flag, at a moment when
`get_message_number()` already shows the raised value, and the dispatch ends the way the
callback ends. -/
theorem delivery_counted_once (s : LibuvSubscriber) (message : Message) (deliveryTag : Nat)
    (redelivered : Bool) (h : s.get_message_number < SIZE_MAX) :
    (consume_onReceived message deliveryTag redelivered s).state.get_message_number =
      s.get_message_number + 1 ∧
    (consume_onReceived message deliveryTag redelivered s).state =
      { s with _message_count := s._message_count + 1 } ∧
    (s._on_received = none →
      (consume_onReceived message deliveryTag redelivered s).effects = [] ∧
      (consume_onReceived message deliveryTag redelivered s).ret = .returned ()) ∧
    (∀ cb, s._on_received = some cb →
      (consume_onReceived message deliveryTag redelivered s).effects =
        [.on_received message deliveryTag redelivered (s.get_message_number + 1)] ∧
      (consume_onReceived message deliveryTag redelivered s).ret =
        match cb (message, deliveryTag, redelivered) with
        | .returns => .returned ()
        | .raises e => .raised e) := by
  have hi : size_t_incr s._message_count = s._message_count + 1 := size_t_incr_of_lt h
  unfold consume_onReceived get_message_number
  cases hcb : s._on_received with
  | none =>
    simp only [Exec.bind_eq, Exec.bind_apply, Exec.this, Exec.assign, Exec.callIfSet,
      Run.bind_returned, Run.prepend_mk, hcb, hi]
    simp
  | some cb =>
    cases ho : cb (message, deliveryTag, redelivered) with
    | returns =>
      simp only [Exec.bind_eq, Exec.bind_apply, Exec.this, Exec.assign, Exec.callIfSet,
        Run.bind_returned, Run.prepend_mk, hcb, hi, ho]
      simp [ho]
    | raises x =>
      simp only [Exec.bind_eq, Exec.bind_apply, Exec.this, Exec.assign, Exec.callIfSet,
        Run.bind_returned, Run.prepend_mk, hcb, hi, ho]
      simp [ho]

/-- C5 on a fresh subscriber with a callback registered: the first delivery makes the
counter 1 and the callback sees tag 42, the redelivered flag and the counter value 1. -/
theorem delivery_counted_once_witness :
    (on_received (some fun _ => Outcome.returns)
      (new "orders" "order.created" "orders-q" true)).state.get_message_number < SIZE_MAX ∧
    (consume_onReceived ⟨"orders", "order.created", "hello"⟩ 42 true
      (on_received (some fun _ => Outcome.returns)
        (new "orders" "order.created" "orders-q" true)).state).state.get_message_number
      = 0 + 1 ∧
    (consume_onReceived ⟨"orders", "order.created", "hello"⟩ 42 true
      (on_received (some fun _ => Outcome.returns)
        (new "orders" "order.created" "orders-q" true)).state).effects =
      [.on_received ⟨"orders", "order.created", "hello"⟩ 42 true (0 + 1)] :=
  ⟨by decide,
    (delivery_counted_once _ ⟨"orders", "order.created", "hello"⟩ 42 true (by decide)).1,
    ((delivery_counted_once _ ⟨"orders", "order.created", "hello"⟩ 42 true
      (by decide)).2.2.2 _ rfl).1⟩

/-- C10, refuted as stated: right after `connect()`, before the reactor has reported the
connection as established, `ack`, `reject` and `requeue` return `true` when the channel
answers `true`; the same holds after the reactor has reported a connection error. -/
theorem settle_before_connected_not_refused :
    (ack 7 (.returned true) (connect "amqp://localhost/" (SubscribeEnv.ok "ctag")
      (new "orders" "order.created" "orders-q" true)).state).ret = .returned true ∧
    (reject 7 (.returned true) (connect "amqp://localhost/" (SubscribeEnv.ok "ctag")
      (new "orders" "order.created" "orders-q" true)).state).ret = .returned true ∧
    (requeue 7 (.returned true) (connect "amqp://localhost/" (SubscribeEnv.ok "ctag")
      (new "orders" "order.created" "orders-q" true)).state).ret = .returned true ∧
    (ack 7 (.returned true) (onError "connection refused"
      (connect "amqp://localhost/" (SubscribeEnv.ok "ctag")
        (new "orders" "order.created" "orders-q" true)).state).state).ret =
      .returned true := by
  decide

/-- C10, amended. `ack`, `reject` and `requeue` are gated on the presence of a channel only:
without a channel they return `false` and call nothing; with a channel they return what the
channel answers. A freshly constructed subscriber has no channel; a `connect()` during which
the library throws nowhere leaves one; the reactor callbacks `onConnected` and `onError` do
not change whether there is one. -/
theorem settle_gated_on_channel_only (s : LibuvSubscriber) (k : Settlement) (deliveryTag : Nat)
    (chan : Result Bool) :
    (settle k deliveryTag chan s).ret =
      (if s._channel = true then chan else .returned false) ∧
    ((settle k deliveryTag chan s).effects = [] ↔ s._channel = false) ∧
    (∀ exchange_name routing_key queue_name loop,
      (new exchange_name routing_key queue_name loop)._channel = false) ∧
    (∀ amqp_url tag, (connect amqp_url (SubscribeEnv.ok tag) s).state._channel = true) ∧
    (onConnected s).state._channel = s._channel ∧
    (∀ message, (onError message s).state._channel = s._channel) := by
  refine ⟨settle_ret s k deliveryTag chan, settle_effects_nil_iff s k deliveryTag chan,
    fun _ _ _ _ => rfl, fun amqp_url tag => (connect_ok_channel s amqp_url tag).1, ?_, ?_⟩
  · show (Exec.callIfSet _ _ _ s).state._channel = s._channel
    rw [Exec.callIfSet_state]
  · intro message
    show (Exec.callIfSet _ _ _ s).state._channel = s._channel
    rw [Exec.callIfSet_state]

end SubscriberSpec

theorem Effect.filter_destroy (owned : Bool) (e : Effect) (h : e.isChannelCall = false) :
    List.filter Effect.isChannelCall (if owned = true then [e] else []) = [] := by
  cases owned <;> simp [h]

namespace LibuvSubscriber

/-- The channel commands one `connect` call issues are an initial part of the four commands
in source order, and all four when the call returns `true`; the call leaves the three names
as they were. -/
theorem connect_commands (s : LibuvSubscriber) (amqp_url : String) (env : SubscribeEnv) :
    (connect amqp_url env s).effects.filter Effect.isChannelCall <+: connectCommands s ∧
    ((connect amqp_url env s).ret = .returned true →
      (connect amqp_url env s).effects.filter Effect.isChannelCall = connectCommands s) ∧
    (connect amqp_url env s).state._exchange_name = s._exchange_name ∧
    (connect amqp_url env s).state._routing_key = s._routing_key ∧
    (connect amqp_url env s).state._queue_name = s._queue_name := by
  obtain ⟨h1, h2, h3, h4, h5, h6, h7⟩ := env
  obtain ⟨lp, hd, cn, ch, en, rk, qn, ct, mc, cs, ce, rc, ss, se⟩ := s
  unfold connect connectCommands
  rcases h1 with _ | (w | _)
  on_goal 1 => rcases h2 with _ | (w | _)
  on_goal 1 => rcases h3 with _ | (w | _)
  on_goal 1 => rcases h4 with _ | (w | _)
  on_goal 1 => rcases h5 with _ | (w | _)
  on_goal 1 => rcases h6 with _ | (w | _)
  on_goal 1 => rcases h7 with _ | (w | _)
  all_goals
    rcases ce with _ | cb <;>
    simp only [Exec.bind_eq, Exec.pure, Exec.bind_apply, Exec.tryCatch_apply,
      Run.bind_returned, Run.bind_raised, Run.prepend_mk,
      Run.catch_std, Run.catch_other, Run.catch_returned, Exec.this, Bool.false_eq_true,
      ↓reduceIte, Exec.construct, Exec.destroy, Exec.assign, Exec.voidCall, Exec.libCall,
      Exec.callIfSet] <;>
    first
      | (cases hv : cb ("Connection failed: " ++ w) <;>
          simp [Effect.isChannelCall, Run.bind_returned, Run.bind_raised, Run.prepend_mk,
            Exec.pure, Effect.filter_destroy _ .deleteHandler rfl,
            Effect.filter_destroy _ .deleteConnection rfl,
            Effect.filter_destroy _ .deleteChannel rfl])
      | simp [Effect.isChannelCall, Run.bind_returned, Run.bind_raised, Run.prepend_mk,
          Exec.pure, Effect.filter_destroy _ .deleteHandler rfl,
          Effect.filter_destroy _ .deleteConnection rfl,
          Effect.filter_destroy _ .deleteChannel rfl]

/-- The object after the `onReceived` continuation. -/
theorem consume_onReceived_state (s : LibuvSubscriber) (message : Message) (deliveryTag : Nat)
    (redelivered : Bool) :
    (consume_onReceived message deliveryTag redelivered s).state =
      { s with _message_count := size_t_incr s._message_count } := by
  unfold consume_onReceived
  simp only [Exec.bind_eq, Exec.bind_apply, Exec.assign, Exec.this, Run.bind_returned,
    Run.prepend_state, Exec.callIfSet_state]

/-- The object after `run`. -/
theorem subscriber_run_state (s : LibuvSubscriber) : (run s).state = s := by
  unfold run
  cases hl : s._loop <;>
    simp only [Exec.bind_eq, Exec.bind_apply, Exec.this, Exec.emit, Exec.pure,
      Run.bind_returned, Run.prepend_mk, Bool.not_false, Bool.not_true, Bool.false_eq_true,
      ↓reduceIte, hl]

/-- No event changes the three names given to the constructor. -/
theorem apply_names (ev : Event) (s : LibuvSubscriber) :
    (ev.apply s)._exchange_name = s._exchange_name ∧
    (ev.apply s)._routing_key = s._routing_key ∧
    (ev.apply s)._queue_name = s._queue_name := by
  cases ev with
  | connect amqp_url env => exact (connect_commands s amqp_url env).2.2
  | ack deliveryTag chan =>
    have h : (Event.ack deliveryTag chan).apply s = s := settle_state s .ack deliveryTag chan
    rw [h]
    exact ⟨rfl, rfl, rfl⟩
  | reject deliveryTag chan =>
    have h : (Event.reject deliveryTag chan).apply s = s :=
      settle_state s .reject deliveryTag chan
    rw [h]
    exact ⟨rfl, rfl, rfl⟩
  | requeue deliveryTag chan =>
    have h : (Event.requeue deliveryTag chan).apply s = s :=
      settle_state s .requeue deliveryTag chan
    rw [h]
    exact ⟨rfl, rfl, rfl⟩
  | run =>
    have h : Event.run.apply s = s := subscriber_run_state s
    rw [h]
    exact ⟨rfl, rfl, rfl⟩
  | onConnected =>
    have h : Event.onConnected.apply s = s := Exec.callIfSet_state _ _ _ s
    rw [h]
    exact ⟨rfl, rfl, rfl⟩
  | onError message =>
    have h : (Event.onError message).apply s = s := Exec.callIfSet_state _ _ _ s
    rw [h]
    exact ⟨rfl, rfl, rfl⟩
  | consume_onSuccess consumerTag =>
    have h : (Event.consume_onSuccess consumerTag).apply s = s :=
      Exec.callIfSet_state _ _ _ s
    rw [h]
    exact ⟨rfl, rfl, rfl⟩
  | consume_onError message =>
    have h : (Event.consume_onError message).apply s = s := Exec.callIfSet_state _ _ _ s
    rw [h]
    exact ⟨rfl, rfl, rfl⟩
  | consume_onReceived message deliveryTag redelivered =>
    have h : (Event.consume_onReceived message deliveryTag redelivered).apply s =
        { s with _message_count := size_t_incr s._message_count } :=
      consume_onReceived_state s message deliveryTag redelivered
    rw [h]
    exact ⟨rfl, rfl, rfl⟩
  | _ => exact ⟨rfl, rfl, rfl⟩

/-- A sequence of events changes none of the three names. -/
theorem runEvents_names (evs : List Event) (s : LibuvSubscriber) :
    (runEvents evs s)._exchange_name = s._exchange_name ∧
    (runEvents evs s)._routing_key = s._routing_key ∧
    (runEvents evs s)._queue_name = s._queue_name := by
  induction evs generalizing s with
  | nil => exact ⟨rfl, rfl, rfl⟩
  | cons ev evs ih =>
    obtain ⟨h1, h2, h3⟩ := ih (ev.apply s)
    obtain ⟨g1, g2, g3⟩ := apply_names ev s
    exact ⟨h1.trans g1, h2.trans g2, h3.trans g3⟩

end LibuvSubscriber

/-! ## LibuvSubscriber: the connect sequence -/

section SubscriberConnect

open LibuvSubscriber

/-- C11. A `connect` call that returns `true`, at any point of the life of a subscriber
constructed with `(exchange_name, routing_key, queue_name)`, makes exactly four calls on the
channel, in this order and each once: `declareExchange(exchange_name, direct)`,
`declareQueue(queue_name, durable)`, `bindQueue(exchange_name, queue_name, routing_key)`,
`consume(queue_name)`. -/
theorem connect_issues_four_commands (exchange_name routing_key queue_name : String)
    (loop : Bool) (evs : List Event) (amqp_url : String) (env : SubscribeEnv)
    (h : (connect amqp_url env
      (runEvents evs (new exchange_name routing_key queue_name loop))).ret = .returned true) :
    (connect amqp_url env
      (runEvents evs (new exchange_name routing_key queue_name loop))).effects.filter
        Effect.isChannelCall =
      [.declareExchange exchange_name .direct, .declareQueue queue_name .durable,
        .bindQueue exchange_name queue_name routing_key, .consume queue_name] := by
  rw [(connect_commands _ amqp_url env).2.1 h]
  obtain ⟨h1, h2, h3⟩ := runEvents_names evs (new exchange_name routing_key queue_name loop)
  unfold connectCommands
  rw [h1, h2, h3]
  rfl

/-- C11 on a fresh subscriber whose first `connect` meets no exception. -/
theorem connect_issues_four_commands_witness :
    (connect "amqp://localhost/" (SubscribeEnv.ok "ctag")
      (runEvents [] (new "orders" "order.created" "orders-q" true))).ret = .returned true ∧
    (connect "amqp://localhost/" (SubscribeEnv.ok "ctag")
      (runEvents [] (new "orders" "order.created" "orders-q" true))).effects.filter
        Effect.isChannelCall =
      [.declareExchange "orders" .direct, .declareQueue "orders-q" .durable,
        .bindQueue "orders" "orders-q" "order.created", .consume "orders-q"] :=
  ⟨rfl, connect_issues_four_commands "orders" "order.created" "orders-q" true []
    "amqp://localhost/" (SubscribeEnv.ok "ctag") rfl⟩

/-- C12, refuted as stated: `connect` issues `declareQueue`, `bindQueue` and `consume` in
the same call as `declareExchange`, so by the time the reactor reports an error of
`declareExchange` through its `onError` continuation the later steps have been issued, and
the continuation issues and withdraws nothing. -/
theorem later_steps_issued_despite_declare_error :
    (connect "amqp://localhost/" (SubscribeEnv.ok "ctag")
        (new "orders" "order.created" "orders-q" true)).effects ++
      (declareExchange_onError "ACCESS_REFUSED"
        (connect "amqp://localhost/" (SubscribeEnv.ok "ctag")
          (new "orders" "order.created" "orders-q" true)).state).effects =
      [.newHandler, .newConnection "amqp://localhost/", .newChannel,
        .declareExchange "orders" .direct, .declareQueue "orders-q" .durable,
        .bindQueue "orders" "orders-q" "order.created", .consume "orders-q"] := by
  decide

/-- C12, amended. The steps of the subscriber's connect sequence are not gated on one
another: the `onError` continuations of `declareExchange`, `declareQueue` and `bindQueue`
change nothing and issue nothing; one `connect` call issues the four commands back to back,
always an initial part of the sequence declareExchange, declareQueue, bindQueue, consume,
and all four of them whenever the library throws nowhere during the call. -/
theorem connect_steps_not_gated (s : LibuvSubscriber) (amqp_url message : String)
    (env : SubscribeEnv) :
    declareExchange_onError message s = ⟨.returned (), s, []⟩ ∧
    declareQueue_onError message s = ⟨.returned (), s, []⟩ ∧
    bindQueue_onError message s = ⟨.returned (), s, []⟩ ∧
    (connect amqp_url env s).effects.filter Effect.isChannelCall <+:
      [.declareExchange s._exchange_name .direct, .declareQueue s._queue_name .durable,
        .bindQueue s._exchange_name s._queue_name s._routing_key,
        .consume s._queue_name] ∧
    (∀ tag, (connect amqp_url (SubscribeEnv.ok tag) s).effects.filter Effect.isChannelCall =
      [.declareExchange s._exchange_name .direct, .declareQueue s._queue_name .durable,
        .bindQueue s._exchange_name s._queue_name s._routing_key,
        .consume s._queue_name]) :=
  ⟨rfl, rfl, rfl, (connect_commands s amqp_url env).1,
    fun tag => (connect_commands s amqp_url (SubscribeEnv.ok tag)).2.1
      (connect_ok_channel s amqp_url tag).2⟩

end SubscriberConnect

namespace LibuvPublisher

/-- What `publish` does, in full, when it finds the gate closed. -/
theorem publish_not_ready_eq (p : LibuvPublisher) (msg : String) (chan : Result Bool)
    (h : p._connected = false ∨ p._channel = false) :
    publish msg chan p =
      match p._on_publish_error with
      | none => ⟨.returned false, p, []⟩
      | some cb =>
        match cb "Publish failed: channel is not open" with
        | .returns =>
          ⟨.returned false, p, [.on_publish_error "Publish failed: channel is not open"]⟩
        | .raises x =>
          ⟨.raised x, p, [.on_publish_error "Publish failed: channel is not open"]⟩ := by
  have hg : (!p._channel || !p._connected) = true := by
    rcases h with h | h <;> simp [h]
  unfold publish
  cases hcb : p._on_publish_error with
  | none =>
    simp only [Exec.bind_eq, Exec.bind_apply, Exec.this, Run.bind_returned, hg, ↓reduceIte,
      Exec.callIfSet, Exec.pure, Run.prepend_mk, hcb]
    rfl
  | some cb =>
    cases ho : cb "Publish failed: channel is not open" with
    | returns =>
      simp only [Exec.bind_eq, Exec.bind_apply, Exec.this, Run.bind_returned, hg, ↓reduceIte,
        Exec.callIfSet, Exec.pure, Run.prepend_mk, hcb, ho]
      rfl
    | raises x =>
      simp only [Exec.bind_eq, Exec.bind_apply, Exec.this, Run.bind_returned, Run.bind_raised,
        hg, ↓reduceIte, Exec.callIfSet, Exec.pure, Run.prepend_mk, hcb, ho]
      rfl

end LibuvPublisher

/-! ## LibuvPublisher: declare completions and failure reporting -/

section PublisherReporting

open LibuvPublisher

/-- C14. The completion of the publisher's exchange declaration, success or error, leaves
the object as it was, so the connected flag, the channel and the counter keep their values,
and `publish` does exactly the same (same result, same object afterwards, same effects)
before the completion, after a declare success and after a declare error. -/
theorem declare_completion_changes_nothing (p : LibuvPublisher) (msg message : String)
    (chan : Result Bool) :
    (declare_onSuccess p).state._connected = p._connected ∧
    (declare_onSuccess p).state._channel = p._channel ∧
    (declare_onSuccess p).state.size = p.size ∧
    (declare_onError message p).state._connected = p._connected ∧
    (declare_onError message p).state._channel = p._channel ∧
    (declare_onError message p).state.size = p.size ∧
    publish msg chan (declare_onSuccess p).state = publish msg chan p ∧
    publish msg chan (declare_onError message p).state = publish msg chan p := by
  rw [declare_onSuccess_state, declare_onError_state]
  exact ⟨rfl, rfl, rfl, rfl, rfl, rfl, rfl, rfl⟩

/-- C15. A `publish` on a publisher that is not ready, whose registered publish-error
callback (if any) returns normally, raises nothing and returns `false`; it does not invoke
the publish-success callback; it invokes a registered publish-error callback exactly once,
with the message "Publish failed: channel is not open", and invokes nothing when none is
registered. -/
theorem publish_not_ready_returns_false (p : LibuvPublisher) (msg : String) (chan : Result Bool)
    (h : p._connected = false ∨ p._channel = false)
    (hcb : ∀ cb, p._on_publish_error = some cb →
      cb "Publish failed: channel is not open" = Outcome.returns) :
    (publish msg chan p).ret = .returned false ∧
    Effect.on_publish_success ∉ (publish msg chan p).effects ∧
    (publish msg chan p).effects =
      if p._on_publish_error.isSome = true then
        [.on_publish_error "Publish failed: channel is not open"]
      else [] := by
  rw [publish_not_ready_eq p msg chan h]
  cases hpe : p._on_publish_error with
  | none => simp
  | some cb => simp [hcb cb hpe]

/-- C15 on a fresh publisher with a publish-error callback registered. -/
theorem publish_not_ready_returns_false_witness :
    ((on_publish_error (some fun _ => Outcome.returns)
        (new "orders" "order.created" true)).state._connected = false ∨
      (on_publish_error (some fun _ => Outcome.returns)
        (new "orders" "order.created" true)).state._channel = false) ∧
    (publish "hello" (.returned true) (on_publish_error (some fun _ => Outcome.returns)
      (new "orders" "order.created" true)).state).ret = .returned false ∧
    (publish "hello" (.returned true) (on_publish_error (some fun _ => Outcome.returns)
      (new "orders" "order.created" true)).state).effects =
      [.on_publish_error "Publish failed: channel is not open"] :=
  ⟨Or.inl rfl,
    (publish_not_ready_returns_false _ "hello" (.returned true) (Or.inl rfl)
      (by intro cb hcb; cases hcb; rfl)).1,
    (publish_not_ready_returns_false _ "hello" (.returned true) (Or.inl rfl)
      (by intro cb hcb; cases hcb; rfl)).2.2⟩

/-- C20, evaluated: on a connected publisher whose publish-success callback throws a
`std::exception`, a `publish` that the channel accepts counts the message (`size()` goes
from 0 to 1) and then returns `false`, after reporting "Publish failed: " with the text of
the callback's exception to the publish-error callback. -/
theorem publish_counted_but_returns_false :
    (connect "amqp://localhost/" ConnectEnv.ok
      (on_publish_error (some fun _ => Outcome.returns)
        (on_publish_success (some fun _ => Outcome.raises (.std "handler failed"))
          (new "orders" "order.created" true)).state).state).state.size = 0 ∧
    (publish "hello" (.returned true) (connect "amqp://localhost/" ConnectEnv.ok
      (on_publish_error (some fun _ => Outcome.returns)
        (on_publish_success (some fun _ => Outcome.raises (.std "handler failed"))
          (new "orders" "order.created" true)).state).state).state).ret = .returned false ∧
    (publish "hello" (.returned true) (connect "amqp://localhost/" ConnectEnv.ok
      (on_publish_error (some fun _ => Outcome.returns)
        (on_publish_success (some fun _ => Outcome.raises (.std "handler failed"))
          (new "orders" "order.created" true)).state).state).state).state.size = 1 ∧
    (publish "hello" (.returned true) (connect "amqp://localhost/" ConnectEnv.ok
      (on_publish_error (some fun _ => Outcome.returns)
        (on_publish_success (some fun _ => Outcome.raises (.std "handler failed"))
          (new "orders" "order.created" true)).state).state).state).effects =
      [.chanPublish "orders" "order.created" "hello", .on_publish_success,
        .on_publish_error "Publish failed: handler failed"] := by
  decide

end PublisherReporting

/-! ## LibuvSubscriber: settlement calls -/

section SubscriberSettlement

open LibuvSubscriber

/-- C13. On a subscriber with a channel: `ack(t)` makes the one call `ack(t)` on the
channel, `reject(t)` the one call `reject(t, 0)` (requeue flag clear), `requeue(t)` the one
call `reject(t, AMQP::requeue)` (requeue flag set); each returns exactly what the channel
answers and leaves every field of the subscriber, `get_message_number()` included, as it
was. -/
theorem settlement_forwards_tag (s : LibuvSubscriber) (t : Nat) (chan : Result Bool)
    (h : s._channel = true) :
    ack t chan s = ⟨chan, s, [.chanAck t]⟩ ∧
    reject t chan s = ⟨chan, s, [.chanReject t .zero]⟩ ∧
    requeue t chan s = ⟨chan, s, [.chanReject t .requeue]⟩ ∧
    (ack t chan s).state.get_message_number = s.get_message_number ∧
    (reject t chan s).state.get_message_number = s.get_message_number ∧
    (requeue t chan s).state.get_message_number = s.get_message_number := by
  rw [ack_eq, reject_eq, requeue_eq, if_pos h, if_pos h, if_pos h]
  exact ⟨rfl, rfl, rfl, rfl, rfl, rfl⟩

/-- C13 on a connected subscriber, for tag 42 and a channel that refuses. -/
theorem settlement_forwards_tag_witness :
    (connect "amqp://localhost/" (SubscribeEnv.ok "ctag")
      (new "orders" "order.created" "orders-q" true)).state._channel = true ∧
    (requeue 42 (.returned false) (connect "amqp://localhost/" (SubscribeEnv.ok "ctag")
      (new "orders" "order.created" "orders-q" true)).state).effects =
      [.chanReject 42 .requeue] ∧
    (requeue 42 (.returned false) (connect "amqp://localhost/" (SubscribeEnv.ok "ctag")
      (new "orders" "order.created" "orders-q" true)).state).ret = .returned false :=
  ⟨rfl,
    congrArg Run.effects (settlement_forwards_tag _ 42 (.returned false) rfl).2.2.1,
    congrArg Run.ret (settlement_forwards_tag _ 42 (.returned false) rfl).2.2.1⟩

/-- C19. On a subscriber without a channel, `ack`, `reject` and `requeue` return `false` for
every tag, make no call and change nothing; a freshly constructed subscriber has no channel
and its `get_message_number()` is 0, and stays 0 across such calls. -/
theorem settle_without_channel (s : LibuvSubscriber) (t : Nat) (chan : Result Bool)
    (h : s._channel = false) :
    ack t chan s = ⟨.returned false, s, []⟩ ∧
    reject t chan s = ⟨.returned false, s, []⟩ ∧
    requeue t chan s = ⟨.returned false, s, []⟩ ∧
    (∀ exchange_name routing_key queue_name loop,
      (new exchange_name routing_key queue_name loop)._channel = false ∧
      (new exchange_name routing_key queue_name loop).get_message_number = 0) := by
  rw [ack_eq, reject_eq, requeue_eq, h]
  exact ⟨rfl, rfl, rfl, fun _ _ _ _ => ⟨rfl, rfl⟩⟩

/-- C19 on the subscriber the message-handling test constructs. -/
theorem settle_without_channel_witness :
    (new "test-exchange" "test.routing.key" "test-queue" true)._channel = false ∧
    ack 1 (.returned true) (new "test-exchange" "test.routing.key" "test-queue" true) =
      ⟨.returned false, new "test-exchange" "test.routing.key" "test-queue" true, []⟩ ∧
    (requeue 1 (.returned true)
      (new "test-exchange" "test.routing.key" "test-queue" true)).state.get_message_number
      = 0 :=
  ⟨rfl, (settle_without_channel _ 1 (.returned true) rfl).1,
    congrArg (fun r => r.state.get_message_number)
      (settle_without_channel (new "test-exchange" "test.routing.key" "test-queue" true) 1
        (.returned true) rfl).2.2.1⟩

end SubscriberSettlement

namespace LibuvSubscriber

/-- The effects of the `onReceived` continuation. -/
theorem consume_onReceived_effects (s : LibuvSubscriber) (message : Message) (deliveryTag : Nat)
    (redelivered : Bool) :
    (consume_onReceived message deliveryTag redelivered s).effects =
      if s._on_received.isSome = true then
        [.on_received message deliveryTag redelivered (size_t_incr s._message_count)]
      else [] := by
  unfold consume_onReceived
  cases hcb : s._on_received with
  | none =>
    simp only [Exec.bind_eq, Exec.bind_apply, Exec.this, Exec.assign, Exec.callIfSet,
      Run.bind_returned, Run.prepend_mk, hcb]
    rfl
  | some cb =>
    cases ho : cb (message, deliveryTag, redelivered) <;>
      simp only [Exec.bind_eq, Exec.bind_apply, Exec.this, Exec.assign, Exec.callIfSet,
        Run.bind_returned, Run.prepend_mk, hcb, ho] <;> rfl

/-- The tags handed over during two stretches of effects. -/
theorem handedTags_append (xs ys : List Effect) :
    handedTags (xs ++ ys) = handedTags xs ++ handedTags ys := by
  induction xs with
  | nil => rfl
  | cons x xs ih =>
    cases x <;> simp [handedTags, ih]

/-- With a callback registered, the tags handed to it are the tags delivered, in order, one
call per delivery; without one no tag is handed on. -/
theorem handedTags_deliverAll (ds : List Delivery) (s : LibuvSubscriber) :
    handedTags (deliverAll ds s).2 =
      if s._on_received.isSome = true then ds.map (fun d => d.deliveryTag) else [] := by
  induction ds generalizing s with
  | nil => simp [deliverAll, handedTags]
  | cons d ds ih =>
    have hreg : (consume_onReceived d.message d.deliveryTag d.redelivered s).state._on_received
        = s._on_received := by
      rw [consume_onReceived_state]
    show handedTags ((consume_onReceived d.message d.deliveryTag d.redelivered s).effects ++
      (deliverAll ds (consume_onReceived d.message d.deliveryTag d.redelivered s).state).2) = _
    rw [handedTags_append, ih, hreg, consume_onReceived_effects]
    cases hcb : s._on_received <;> simp [handedTags]

end LibuvSubscriber

/-! ## LibuvSubscriber: deliveries -/

section SubscriberDeliveries

open LibuvSubscriber

/-- C18. The handler of the message-handling test makes exactly one settlement call per
delivery, with the delivery's tag: `ack` if the body contains "success", otherwise `requeue`
if it contains "retry", otherwise `reject`. It runs as that one call does (same subscriber
afterwards, same effects), and on a subscriber with a channel its effects are exactly that
one call on the channel. -/
theorem test_handler_settles_once (s : LibuvSubscriber) (message : Message) (t : Nat)
    (redelivered : Bool) (chan : Result Bool) :
    (test_on_received message t redelivered chan s).state = s ∧
    (test_on_received message t redelivered chan s).effects =
      (settle (test_on_received_choice message.body) t chan s).effects ∧
    test_on_received_choice message.body =
      (if std_string_contains message.body "success" = true then Settlement.ack
        else if std_string_contains message.body "retry" = true then Settlement.requeue
        else Settlement.reject) ∧
    (s._channel = true →
      (test_on_received message t redelivered chan s).effects =
        [match test_on_received_choice message.body with
          | .ack => Effect.chanAck t
          | .requeue => Effect.chanReject t .requeue
          | .reject => Effect.chanReject t .zero]) := by
  unfold test_on_received test_on_received_choice settle
  cases h1 : std_string_contains message.body "success" <;>
    cases h2 : std_string_contains message.body "retry" <;>
    cases hch : s._channel <;>
    rcases chan with (_ | _) | (_ | _) <;>
    simp [Exec.bind_eq, Exec.bind_apply, ack_eq, reject_eq, requeue_eq, Run.bind_returned,
      Run.bind_raised, Run.prepend_mk, Exec.pure, hch]

/-- C18 on three bodies, on a connected subscriber. -/
theorem test_handler_settles_once_witness :
    (connect "amqp://localhost/" (SubscribeEnv.ok "ctag")
      (new "test-exchange" "test.routing.key" "test-queue" true)).state._channel = true ∧
    (test_on_received ⟨"test-exchange", "test.routing.key", "job 7: success"⟩ 7 false
      (.returned true)
      (connect "amqp://localhost/" (SubscribeEnv.ok "ctag")
        (new "test-exchange" "test.routing.key" "test-queue" true)).state).effects =
      [.chanAck 7] ∧
    (test_on_received ⟨"test-exchange", "test.routing.key", "please retry"⟩ 8 false
      (.returned true)
      (connect "amqp://localhost/" (SubscribeEnv.ok "ctag")
        (new "test-exchange" "test.routing.key" "test-queue" true)).state).effects =
      [.chanReject 8 .requeue] ∧
    (test_on_received ⟨"test-exchange", "test.routing.key", "garbage"⟩ 9 true
      (.returned true)
      (connect "amqp://localhost/" (SubscribeEnv.ok "ctag")
        (new "test-exchange" "test.routing.key" "test-queue" true)).state).effects =
      [.chanReject 9 .zero] :=
  ⟨rfl,
    ((test_handler_settles_once _ ⟨"test-exchange", "test.routing.key", "job 7: success"⟩ 7
      false (.returned true)).2.2.2 rfl).trans (by decide),
    ((test_handler_settles_once _ ⟨"test-exchange", "test.routing.key", "please retry"⟩ 8
      false (.returned true)).2.2.2 rfl).trans (by decide),
    ((test_handler_settles_once _ ⟨"test-exchange", "test.routing.key", "garbage"⟩ 9
      true (.returned true)).2.2.2 rfl).trans (by decide)⟩

end SubscriberDeliveries

/-! ## Declare-before-use -/

theorem Effect.filter_ite_single (f : Effect → Bool) (b : Bool) (e : Effect) (h : f e = false) :
    List.filter f (if b = true then [e] else []) = [] := by
  cases b <;> simp [h]

theorem declaredAfter_filter (name : String) (d : Bool) (es : List Effect) :
    declaredAfter name d (es.filter Effect.isChannelUse) = declaredAfter name d es := by
  induction es generalizing d with
  | nil => rfl
  | cons e es ih =>
    cases e <;> simp [List.filter, Effect.isChannelUse, declaredAfter, ih]

theorem declaredBeforeUse_filter (name : String) (d : Bool) (es : List Effect) :
    declaredBeforeUse name d (es.filter Effect.isChannelUse) = declaredBeforeUse name d es := by
  induction es generalizing d with
  | nil => rfl
  | cons e es ih =>
    cases e <;> simp [List.filter, Effect.isChannelUse, declaredBeforeUse, ih]

theorem declaredBeforeUse_append (name : String) (d : Bool) (xs ys : List Effect) :
    declaredBeforeUse name d (xs ++ ys) =
      (declaredBeforeUse name d xs && declaredBeforeUse name (declaredAfter name d xs) ys) := by
  induction xs generalizing d with
  | nil => simp [declaredBeforeUse, declaredAfter]
  | cons x xs ih =>
    cases x <;> simp [declaredBeforeUse, declaredAfter, ih, Bool.and_assoc]

namespace LibuvPublisher

/-- The channel-related effects of `connect`: when the three constructors succeed, a channel
is created and `declareExchange` is called on it with the publisher's exchange name, and the
publisher owns that channel afterwards; otherwise nothing channel-related happens and the
channel pointer is as before. -/
theorem connect_channelUse (p : LibuvPublisher) (amqp_url : String) (env : ConnectEnv) :
    ∃ reached : Bool,
      (connect amqp_url env p).effects.filter Effect.isChannelUse =
        (if reached = true then [.newChannel, .declareExchange p._exchange_name .direct]
          else []) ∧
      (connect amqp_url env p).state._channel = (reached || p._channel) := by
  obtain ⟨h1, h2, h3, h4⟩ := env
  obtain ⟨ir, lp, hd, cn, ch, en, rk, mc, cd, cs, cl, ps, ds, ce, pe, de⟩ := p
  unfold connect
  cases cd
  · rcases h1 with _ | (w | _)
    on_goal 1 => rcases h2 with _ | (w | _)
    on_goal 1 => rcases h3 with _ | (w | _)
    on_goal 1 => rcases h4 with _ | (w | _)
    all_goals
      rcases ce with _ | cb <;>
      simp only [Exec.bind_eq, Exec.pure, Exec.bind_apply, Exec.tryCatch_apply,
        Run.bind_returned, Run.bind_raised, Run.prepend_mk,
        Run.catch_std, Run.catch_other, Run.catch_returned, Exec.this, Bool.false_eq_true,
        ↓reduceIte, Exec.construct, Exec.destroy, Exec.assign, Exec.voidCall,
        Exec.callIfSet] <;>
      first
        | (cases hv : cb ("Connect failed: " ++ w) <;>
            first
              | (refine ⟨true, ?_, rfl⟩
                 simp [Effect.isChannelUse, Run.bind_returned, Run.bind_raised, Run.prepend_mk,
                  Exec.pure, Effect.filter_ite_single Effect.isChannelUse _ .deleteHandler rfl,
                  Effect.filter_ite_single Effect.isChannelUse _ .deleteConnection rfl,
                  Effect.filter_ite_single Effect.isChannelUse _ .deleteChannel rfl])
              | (refine ⟨false, ?_, rfl⟩
                 simp [Effect.isChannelUse, Run.bind_returned, Run.bind_raised, Run.prepend_mk,
                  Exec.pure, Effect.filter_ite_single Effect.isChannelUse _ .deleteHandler rfl,
                  Effect.filter_ite_single Effect.isChannelUse _ .deleteConnection rfl,
                  Effect.filter_ite_single Effect.isChannelUse _ .deleteChannel rfl]))
        | (refine ⟨true, ?_, rfl⟩
           simp [Effect.isChannelUse, Run.bind_returned, Run.bind_raised, Run.prepend_mk,
            Exec.pure, Effect.filter_ite_single Effect.isChannelUse _ .deleteHandler rfl,
            Effect.filter_ite_single Effect.isChannelUse _ .deleteConnection rfl,
            Effect.filter_ite_single Effect.isChannelUse _ .deleteChannel rfl])
        | (refine ⟨false, ?_, rfl⟩
           simp [Effect.isChannelUse, Run.bind_returned, Run.bind_raised, Run.prepend_mk,
            Exec.pure, Effect.filter_ite_single Effect.isChannelUse _ .deleteHandler rfl,
            Effect.filter_ite_single Effect.isChannelUse _ .deleteConnection rfl,
            Effect.filter_ite_single Effect.isChannelUse _ .deleteChannel rfl])
  · refine ⟨false, ?_, ?_⟩ <;>
    simp only [Exec.bind_eq, Exec.pure, Exec.bind_apply, Run.bind_returned, Run.prepend_mk,
      Exec.this, ↓reduceIte] <;> rfl

/-- The channel-related effects of `publish`: the one `publish` call on the channel when the
gate is open, nothing otherwise. -/
theorem publish_channelUse (p : LibuvPublisher) (msg : String) (chan : Result Bool) :
    (publish msg chan p).effects.filter Effect.isChannelUse =
      if (p._channel && p._connected) = true then
        [.chanPublish p._exchange_name p._routing_key msg]
      else [] := by
  obtain ⟨ir, lp, hd, cn, ch, en, rk, mc, cd, cs, cl, ps, ds, ce, pe, de⟩ := p
  unfold publish
  cases ch <;> cases cd <;> rcases pe with _ | pe <;> rcases ps with _ | ps <;>
    rcases chan with (_ | _) | (_ | _) <;>
    simp only [Exec.bind_eq, Exec.pure, Exec.bind_apply, Exec.tryCatch_apply,
      Run.bind_returned, Run.bind_raised, Run.prepend_mk, Run.catch_std, Run.catch_other,
      Run.catch_returned, Exec.this, Bool.false_eq_true, ↓reduceIte, Bool.not_true,
      Bool.not_false, Bool.or_true, Bool.or_false, Bool.or_self, Bool.and_self,
      Bool.and_true, Bool.and_false, beq_iff_eq,
      Exec.libCall, Exec.assign, Exec.callIfSet] <;>
    (try (split <;> try simp only [Run.bind_returned, Run.bind_raised, Run.prepend_mk,
      Run.catch_std, Run.catch_other, Run.catch_returned, Exec.pure, Exec.bind_apply,
      Exec.callIfSet])) <;>
    (try (simp only [Run.catch]; split <;>
      simp only [Run.bind_returned, Run.bind_raised, Run.prepend_mk, Exec.pure,
        Exec.bind_apply, Exec.callIfSet])) <;>
    (try (split <;> try simp only [Run.bind_returned, Run.bind_raised, Run.prepend_mk,
      Run.catch_std, Run.catch_other, Run.catch_returned, Exec.pure, Exec.bind_apply,
      Exec.callIfSet])) <;>
    simp [Effect.isChannelUse, Run.prepend_mk, Exec.pure]

end LibuvPublisher
theorem Exec.callIfSet_filter {σ α : Type} (f : Effect → Bool)
    (slot : σ → Option (α → Outcome)) (arg : α) (e : Effect) (s : σ) (h : f e = false) :
    List.filter f (Exec.callIfSet slot arg e s).effects = [] := by
  unfold Exec.callIfSet
  split
  · rfl
  · split <;> simp [h]

namespace LibuvPublisher

/-- No event changes the exchange name. -/
theorem apply_exchange_name (ev : Event) (p : LibuvPublisher) :
    (ev.apply p)._exchange_name = p._exchange_name := by
  cases ev with
  | connect amqp_url env =>
    show (LibuvPublisher.connect amqp_url env p).state._exchange_name = p._exchange_name
    rw [connect_frame]
  | close =>
    show (LibuvPublisher.close p).state._exchange_name = p._exchange_name
    rw [close_state]
    split <;> rfl
  | publish msg chan =>
    show (LibuvPublisher.publish msg chan p).state._exchange_name = p._exchange_name
    by_cases h : p._channel = true ∧ p._connected = true ∧ chan = .returned true
    · obtain ⟨h1, h2, h3⟩ := h
      rw [h3, publish_state_accepted p msg h1 h2]
    · by_cases h3 : chan = .returned true
      · rw [publish_state_not_ready]
        cases h1 : p._channel
        · exact Or.inl rfl
        · cases h2 : p._connected
          · exact Or.inr rfl
          · exact absurd ⟨h1, h2, h3⟩ h
      · rw [publish_state_refused p msg chan h3]
  | run =>
    show (LibuvPublisher.run p).state._exchange_name = p._exchange_name
    rw [run_state]
    split <;> rfl
  | onConnected =>
    show (LibuvPublisher.onConnected p).state._exchange_name = p._exchange_name
    rw [onConnected_state]
  | onClosed =>
    show (LibuvPublisher.onClosed p).state._exchange_name = p._exchange_name
    rw [onClosed_state]
  | onError message =>
    show (LibuvPublisher.onError message p).state._exchange_name = p._exchange_name
    rw [onError_state]
  | declare_onSuccess =>
    show (LibuvPublisher.declare_onSuccess p).state._exchange_name = p._exchange_name
    rw [declare_onSuccess_state]
  | declare_onError message =>
    show (LibuvPublisher.declare_onError message p).state._exchange_name = p._exchange_name
    rw [declare_onError_state]
  | _ => rfl

/-- What one event does that matters for declare-before-use: nothing, without giving the
publisher a channel it did not have; or the creation of a channel followed by
`declareExchange` for the publisher's exchange; or one `publish` on the channel the
publisher has. -/
theorem apply_channelUse (ev : Event) (p : LibuvPublisher) :
    ((ev.effects p).filter Effect.isChannelUse = [] ∧
      ((ev.apply p)._channel = true → p._channel = true)) ∨
    (ev.effects p).filter Effect.isChannelUse =
      [.newChannel, .declareExchange p._exchange_name .direct] ∨
    (p._channel = true ∧ ∃ routingKey msg,
      (ev.effects p).filter Effect.isChannelUse =
        [.chanPublish p._exchange_name routingKey msg]) := by
  cases ev with
  | connect amqp_url env =>
    obtain ⟨reached, h1, h2⟩ := connect_channelUse p amqp_url env
    cases reached
    · left
      refine ⟨h1, ?_⟩
      intro hc
      have h3 : (LibuvPublisher.connect amqp_url env p).state._channel = true := hc
      rw [h2] at h3
      simpa using h3
    · right
      left
      exact h1
  | publish msg chan =>
    have h := publish_channelUse p msg chan
    cases hch : p._channel
    · left
      refine ⟨?_, ?_⟩
      · show (LibuvPublisher.publish msg chan p).effects.filter Effect.isChannelUse = []
        rw [h, hch]
        rfl
      · intro hc
        have h3 : (LibuvPublisher.publish msg chan p).state._channel = true := hc
        rw [publish_state_not_ready p msg chan (Or.inl hch), hch] at h3
        exact h3
    · cases hcd : p._connected
      · left
        refine ⟨?_, fun _ => rfl⟩
        show (LibuvPublisher.publish msg chan p).effects.filter Effect.isChannelUse = []
        rw [h, hch, hcd]
        rfl
      · right
        right
        refine ⟨rfl, p._routing_key, msg, ?_⟩
        show (LibuvPublisher.publish msg chan p).effects.filter Effect.isChannelUse = _
        rw [h, hch, hcd]
        rfl
  | close =>
    left
    refine ⟨?_, ?_⟩
    · show (LibuvPublisher.close p).effects.filter Effect.isChannelUse = []
      unfold LibuvPublisher.close
      cases hc : p._connected <;>
        simp only [Exec.bind_eq, Exec.pure, Exec.bind_apply, Run.bind_returned,
          Run.prepend_mk, Exec.this, Exec.destroy, Exec.assign, Bool.false_eq_true,
          ↓reduceIte, Bool.not_true, Bool.not_false, hc] <;>
        simp [Effect.filter_ite_single Effect.isChannelUse _ .deleteHandler rfl,
          Effect.filter_ite_single Effect.isChannelUse _ .deleteConnection rfl,
          Effect.filter_ite_single Effect.isChannelUse _ .deleteChannel rfl]
    · intro hc
      have h3 : (LibuvPublisher.close p).state._channel = true := hc
      rw [close_state] at h3
      split at h3
      · cases h3
      · exact h3
  | run =>
    left
    refine ⟨?_, ?_⟩
    · show (LibuvPublisher.run p).effects.filter Effect.isChannelUse = []
      unfold LibuvPublisher.run
      cases hl : p._loop <;> cases hr : p._is_running <;>
        simp only [Exec.bind_eq, Exec.pure, Exec.bind_apply, Run.bind_returned,
          Run.prepend_mk, Exec.this, Exec.emit, Exec.assign, Bool.false_eq_true, ↓reduceIte,
          Bool.not_true, Bool.not_false, Bool.or_true, Bool.or_false, Bool.or_self, hl, hr] <;>
        simp [Effect.isChannelUse]
    · intro hc
      have h3 : (LibuvPublisher.run p).state._channel = true := hc
      rw [run_state] at h3
      split at h3 <;> exact h3
  | onConnected =>
    left
    refine ⟨?_, ?_⟩
    · exact Exec.callIfSet_filter Effect.isChannelUse _ _ _ _ rfl
    · intro hc
      have h3 : (LibuvPublisher.onConnected p).state._channel = true := hc
      rw [onConnected_state] at h3
      exact h3
  | onClosed =>
    left
    refine ⟨?_, ?_⟩
    · exact Exec.callIfSet_filter Effect.isChannelUse _ _ _ _ rfl
    · intro hc
      have h3 : (LibuvPublisher.onClosed p).state._channel = true := hc
      rw [onClosed_state] at h3
      exact h3
  | onError message =>
    left
    refine ⟨Exec.callIfSet_filter Effect.isChannelUse _ _ _ _ rfl, ?_⟩
    intro hc
    have h3 : (LibuvPublisher.onError message p).state._channel = true := hc
    rw [onError_state] at h3
    exact h3
  | declare_onSuccess =>
    left
    refine ⟨Exec.callIfSet_filter Effect.isChannelUse _ _ _ _ rfl, ?_⟩
    intro hc
    have h3 : (LibuvPublisher.declare_onSuccess p).state._channel = true := hc
    rw [declare_onSuccess_state] at h3
    exact h3
  | declare_onError message =>
    left
    refine ⟨Exec.callIfSet_filter Effect.isChannelUse _ _ _ _ rfl, ?_⟩
    intro hc
    have h3 : (LibuvPublisher.declare_onError message p).state._channel = true := hc
    rw [declare_onError_state] at h3
    exact h3
  | _ => exact Or.inl ⟨rfl, fun hc => hc⟩

/-- Along any sequence of events, starting from a publisher that either has no channel or
has one on which its exchange has been declared, every `publish` on the channel comes after
a `declareExchange` for the publisher's exchange on the same channel. -/
theorem traceEffects_declared (evs : List Event) (p : LibuvPublisher) (d : Bool)
    (hinv : p._channel = true → d = true) :
    declaredBeforeUse p._exchange_name d (traceEffects evs p) = true := by
  induction evs generalizing p d with
  | nil => rfl
  | cons ev evs ih =>
    show declaredBeforeUse p._exchange_name d (ev.effects p ++ traceEffects evs (ev.apply p))
      = true
    rw [declaredBeforeUse_append, ← declaredBeforeUse_filter _ _ (ev.effects p),
      ← declaredAfter_filter _ _ (ev.effects p)]
    have hname := apply_exchange_name ev p
    rcases apply_channelUse ev p with ⟨h1, h2⟩ | h1 | ⟨h0, rk, msg, h1⟩
    · rw [h1]
      have := ih (ev.apply p) d (fun hc => hinv (h2 hc))
      rw [hname] at this
      simpa [declaredBeforeUse, declaredAfter] using this
    · rw [h1]
      have := ih (ev.apply p) true (fun _ => rfl)
      rw [hname] at this
      simpa [declaredBeforeUse, declaredAfter] using this
    · rw [h1]
      have hd := hinv h0
      subst hd
      have := ih (ev.apply p) true (fun _ => rfl)
      rw [hname] at this
      simpa [declaredBeforeUse, declaredAfter] using this

end LibuvPublisher

section PublisherDeclareBeforeUse

open LibuvPublisher

/-- The log check is not vacuous: a `publish` on a new channel with no `declareExchange`
before it is rejected, also when an earlier channel had the exchange declared. -/
theorem declaredBeforeUse_rejects :
    declaredBeforeUse "orders" false
      [.newChannel, .chanPublish "orders" "order.created" "m"] = false ∧
    declaredBeforeUse "orders" false
      [.newChannel, .declareExchange "orders" .direct, .newChannel,
        .chanPublish "orders" "order.created" "m"] = false ∧
    declaredBeforeUse "orders" false
      [.newChannel, .declareExchange "other" .direct,
        .chanPublish "orders" "order.created" "m"] = false := by
  decide

/-- A history in which a `publish` does reach the channel: connect, then publish. -/
theorem traceEffects_connect_publish :
    traceEffects [Event.connect "amqp://localhost/" ConnectEnv.ok,
        Event.publish "m" (.returned true)] (new "orders" "order.created" true) =
      [.newHandler, .newConnection "amqp://localhost/", .newChannel,
        .declareExchange "orders" .direct, .chanPublish "orders" "order.created" "m"] := by
  decide

/-- C16. Declare-before-use: in the effects of every sequence of publisher operations and
reactor events that starts from a freshly constructed publisher, each `publish` call made on
the channel comes after a `declareExchange` call for the publisher's exchange name on that
same channel (the latest one created before the publish), the call `connect()` makes right
after creating it. -/
theorem declare_before_use (exchange_name routing_key : String) (loop : Bool)
    (evs : List Event) :
    declaredBeforeUse exchange_name false
      (traceEffects evs (new exchange_name routing_key loop)) = true :=
  traceEffects_declared evs (new exchange_name routing_key loop) false
    (fun h => Bool.noConfusion h)

end PublisherDeclareBeforeUse

/-! ## LibuvPublisher: connect on a connected publisher -/

section PublisherReconnect

open LibuvPublisher

/-- C21. On a publisher whose connected flag is set, `connect(url)` is a no-op for every url
and whatever the library would have done: it returns `true`, leaves every field as it was,
and has no effect at all, so no handler, connection or channel is created and no
`declareExchange` is issued. -/
theorem connect_when_connected_is_noop (p : LibuvPublisher) (amqp_url : String)
    (env : ConnectEnv) (h : p._connected = true) :
    (connect amqp_url env p).ret = .returned true ∧
    (connect amqp_url env p).state = p ∧
    (connect amqp_url env p).effects = [] ∧
    Effect.newHandler ∉ (connect amqp_url env p).effects ∧
    Effect.newConnection amqp_url ∉ (connect amqp_url env p).effects ∧
    Effect.newChannel ∉ (connect amqp_url env p).effects ∧
    Effect.declareExchange p._exchange_name .direct ∉ (connect amqp_url env p).effects := by
  rw [connect_of_connected p amqp_url env h]
  exact ⟨rfl, rfl, rfl, List.not_mem_nil _, List.not_mem_nil _, List.not_mem_nil _,
    List.not_mem_nil _⟩

/-- C21 on a publisher that has connected once: a second `connect`, to another address and
with a library that would throw in every step, returns `true` and does nothing. -/
theorem connect_when_connected_is_noop_witness :
    (connect "amqp://localhost/" ConnectEnv.ok
      (new "orders" "order.created" true)).state._connected = true ∧
    (connect "amqp://other-host/"
      ⟨.raises (.std "bad_alloc"), .raises (.std "bad address"), .raises .other,
        .raises (.std "channel")⟩
      (connect "amqp://localhost/" ConnectEnv.ok
        (new "orders" "order.created" true)).state).ret = .returned true ∧
    (connect "amqp://other-host/"
      ⟨.raises (.std "bad_alloc"), .raises (.std "bad address"), .raises .other,
        .raises (.std "channel")⟩
      (connect "amqp://localhost/" ConnectEnv.ok
        (new "orders" "order.created" true)).state).effects = [] :=
  ⟨rfl,
    (connect_when_connected_is_noop _ "amqp://other-host/"
      ⟨.raises (.std "bad_alloc"), .raises (.std "bad address"), .raises .other,
        .raises (.std "channel")⟩ rfl).1,
    (connect_when_connected_is_noop _ "amqp://other-host/"
      ⟨.raises (.std "bad_alloc"), .raises (.std "bad address"), .raises .other,
        .raises (.std "channel")⟩ rfl).2.2.1⟩

end PublisherReconnect

end es_amqpcc
